import Mathlib

/-!
# Phytium SDIF driver (`bsp/phytium/libraries/drivers/drv_sdif.c`)

A shallow embedding of the request path of the driver:

* `fsdif_dma_transfer`  — submit one command, wait for completion or error,
  extract the response (source lines 217–284);
* `fsdif_request_send`  — translate a generic request into command
  descriptors, drive the transfer strategy for the main and the stop command,
  release the scratch buffer and complete the request (source lines 286–414).

The header files of the kernel, of the MMC/SD stack and of the controller
library are not part of the sources, so the numeric constants they define are
carried in a record `Consts`; the calls into those libraries are answered by an
`Oracle` and recorded in logs.
-/

namespace Sdif

/-! ## Constants of the absent headers -/

/-- Constants that the driver takes from header files outside the sources
(`mmcsd_core.h`, `mmcsd_cmd.h`, `sdio.h`, `rtdef.h`, `fsdif.h`, `rtconfig.h`).
Every field carries the name of the C macro. -/
structure Consts where
  SD_IO_SEND_OP_COND : Nat
  SD_IO_RW_DIRECT : Nat
  GO_IDLE_STATE : Nat
  GO_INACTIVE_STATE : Nat
  RESP_MASK : Nat
  RESP_NONE : Nat
  RESP_R2 : Nat
  RESP_R3 : Nat
  RESP_R4 : Nat
  DATA_DIR_WRITE : Nat
  DATA_DIR_READ : Nat
  FSDIF_CMD_FLAG_NEED_INIT : Nat
  FSDIF_CMD_FLAG_EXP_RESP : Nat
  FSDIF_CMD_FLAG_EXP_LONG_RESP : Nat
  FSDIF_CMD_FLAG_NEED_RESP_CRC : Nat
  FSDIF_CMD_FLAG_EXP_DATA : Nat
  FSDIF_CMD_FLAG_WRITE_DATA : Nat
  FSDIF_CMD_FLAG_READ_DATA : Nat
  FSDIF_CMD_FLAG_NEED_AUTO_STOP : Nat
  RT_EOK : Int
  RT_ERROR : Int
  RT_EIO : Int
  FT_SUCCESS : Nat
  RT_EVENT_FLAG_AND : Nat
  RT_EVENT_FLAG_CLEAR : Nat
  RT_WAITING_NO : Nat
  PV_OFFSET : Nat
  CONFIG_SDCARD_OFFSET : Nat
deriving DecidableEq, Repr

/-- The eight command-descriptor flags of `fsdif.h`, in a fixed order. -/
def Consts.cmdFlags (c : Consts) : List Nat :=
  [c.FSDIF_CMD_FLAG_NEED_INIT, c.FSDIF_CMD_FLAG_NEED_AUTO_STOP,
   c.FSDIF_CMD_FLAG_NEED_RESP_CRC, c.FSDIF_CMD_FLAG_EXP_RESP,
   c.FSDIF_CMD_FLAG_EXP_LONG_RESP, c.FSDIF_CMD_FLAG_EXP_DATA,
   c.FSDIF_CMD_FLAG_READ_DATA, c.FSDIF_CMD_FLAG_WRITE_DATA]

/-- What the proofs need to know about the constants: "no response" is the
zero response type and R2 is another one; the eight descriptor flags are
non-empty bit masks that do not overlap; `RT_EOK` is zero and the two error
codes are positive (they are returned negated). -/
def Consts.WellFormed (c : Consts) : Prop :=
  c.RESP_NONE = 0 ∧ c.RESP_R2 ≠ 0 ∧
  (∀ f ∈ c.cmdFlags, f ≠ 0) ∧
  c.cmdFlags.Pairwise (fun f g => f &&& g = 0) ∧
  c.RT_EOK = 0 ∧ 0 < c.RT_ERROR ∧ 0 < c.RT_EIO

/-- One concrete choice of the constants: the numbering of the RT-Thread
headers for command codes, response types, direction bits, event options and
error codes, and eight distinct single bits for the descriptor flags. -/
def stdConsts : Consts where
  SD_IO_SEND_OP_COND := 5
  SD_IO_RW_DIRECT := 52
  GO_IDLE_STATE := 0
  GO_INACTIVE_STATE := 15
  RESP_MASK := 0xF
  RESP_NONE := 0
  RESP_R2 := 3
  RESP_R3 := 4
  RESP_R4 := 5
  DATA_DIR_WRITE := 1
  DATA_DIR_READ := 2
  FSDIF_CMD_FLAG_NEED_INIT := 2
  FSDIF_CMD_FLAG_EXP_RESP := 4
  FSDIF_CMD_FLAG_EXP_LONG_RESP := 8
  FSDIF_CMD_FLAG_NEED_RESP_CRC := 16
  FSDIF_CMD_FLAG_EXP_DATA := 32
  FSDIF_CMD_FLAG_WRITE_DATA := 64
  FSDIF_CMD_FLAG_READ_DATA := 128
  FSDIF_CMD_FLAG_NEED_AUTO_STOP := 256
  RT_EOK := 0
  RT_ERROR := 1
  RT_EIO := 8
  FT_SUCCESS := 0
  RT_EVENT_FLAG_AND := 1
  RT_EVENT_FLAG_CLEAR := 4
  RT_WAITING_NO := 0
  PV_OFFSET := 0
  CONFIG_SDCARD_OFFSET := 0

/-! ## Constants defined in the driver itself (source lines 50–73) -/

def SDIF_DMA_ALIGN : Nat := 512
def SDIF_DMA_BLK_SZ : Nat := 512
def SDIF_EVENT_CARD_DETECTED : Nat := 1 <<< 0
def SDIF_EVENT_COMMAND_DONE : Nat := 1 <<< 1
def SDIF_EVENT_DATA_DONE : Nat := 1 <<< 2
def SDIF_EVENT_ERROR_OCCUR : Nat := 1 <<< 3
def SDIF_EVENT_SDIO_IRQ : Nat := 1 <<< 4

/-- Width of `rt_uint32_t` / `u32` arithmetic. -/
def U32 : Nat := 2 ^ 32

/-- Width of `uintptr` arithmetic. -/
def UPTR : Nat := 2 ^ 64

/-! ## Data model -/

/-- Four 32-bit words: `resp[4]` of a command, `response[4]` of a descriptor. -/
structure Words4 where
  w0 : Nat
  w1 : Nat
  w2 : Nat
  w3 : Nat
deriving DecidableEq, Repr

/-- The fields of `struct rt_mmcsd_cmd` the driver touches. -/
structure rt_mmcsd_cmd where
  cmd_code : Nat
  arg : Nat
  resp : Words4
  flags : Nat
  err : Int
deriving DecidableEq, Repr

/-- The fields of `struct rt_mmcsd_data` the driver touches; `buf` is the
address of the caller buffer. -/
structure rt_mmcsd_data where
  blksize : Nat
  blks : Nat
  buf : Nat
  flags : Nat
deriving DecidableEq, Repr

/-- A request: a command, an optional data descriptor (`req->data`, null when
absent) and an optional stop command (`req->stop`). -/
structure rt_mmcsd_req where
  cmd : rt_mmcsd_cmd
  data : Option rt_mmcsd_data
  stop : Option rt_mmcsd_cmd
deriving DecidableEq, Repr

/-- The controller library's data descriptor `FSdifData`. -/
structure FSdifData where
  buf : Nat
  buf_dma : Nat
  blksz : Nat
  blkcnt : Nat
  datalen : Nat
deriving DecidableEq, Repr

/-- The controller library's command descriptor `FSdifCmdData`; `data_p` is
the pointer to the attached data descriptor, `none` for a null pointer. -/
structure FSdifCmdData where
  cmdidx : Nat
  cmdarg : Nat
  response : Words4
  flag : Nat
  data_p : Option FSdifData
deriving DecidableEq, Repr

/-- A descriptor after `rt_memset(&d, 0, sizeof(FSdifCmdData))`. -/
def FSdifCmdData.zero : FSdifCmdData :=
  { cmdidx := 0, cmdarg := 0, response := ⟨0, 0, 0, 0⟩, flag := 0, data_p := none }

/-- A data descriptor after `rt_memset(&d, 0, sizeof(FSdifData))`. -/
def FSdifData.zero : FSdifData :=
  { buf := 0, buf_dma := 0, blksz := 0, blkcnt := 0, datalen := 0 }

/-- Modelled from the spec: `resp_type` (a macro of the absent `mmcsd_core.h`)
yields the response type of a command, the part of its flags under
`RESP_MASK`; source line 396 tests the same bits as `flags & RESP_MASK`. -/
def resp_type (c : Consts) (cmd : rt_mmcsd_cmd) : Nat :=
  cmd.flags &&& c.RESP_MASK

/-- A flag is set in a flag word when the two have a bit in common. -/
def hasFlag (word flag : Nat) : Prop := word &&& flag ≠ 0

instance (word flag : Nat) : Decidable (hasFlag word flag) := by
  unfold hasFlag; infer_instance

/-! ## Memory -/

/-- Byte-addressed memory. -/
abbrev Mem := Nat → Nat

/-- The effect of `rt_memset(dst, v, n)`. -/
def rt_memset (m : Mem) (dst v n : Nat) : Mem :=
  fun a => if dst ≤ a ∧ a < dst + n then v else m a

/-- The effect of `rt_memcpy(dst, src, n)`: byte `i` of the destination
receives byte `i` of the source as it was before the call. -/
def rt_memcpy (m : Mem) (dst src n : Nat) : Mem :=
  fun a => if dst ≤ a ∧ a < dst + n then m (src + (a - dst)) else m a

/-! ## The environment of the driver -/

/-- Calls into the controller library and the kernel made by
`fsdif_dma_transfer`, with their arguments and results. -/
inductive HwCall where
  | FSdifDMATransfer (cmd_data : FSdifCmdData) (ret : Nat)
  | rt_event_recv (set option timeout_ms : Nat) (ret : Int)
  | FSdifGetCmdResponse (cmd_data : FSdifCmdData) (response : Words4)
  | fsdif_host_relax
deriving DecidableEq, Repr

/-- The world outside the request: memory and the log of hardware-side calls. -/
structure World where
  mem : Mem
  log : List HwCall

/-- Record one call. -/
def World.call (w : World) (e : HwCall) : World :=
  { w with log := w.log ++ [e] }

/-- Answers of the absent libraries.  The first argument of every field is the
number of hardware-side calls made before (the length of the log), so that
successive calls may be answered differently. -/
structure Oracle where
  /-- Status returned by `FSdifDMATransfer`. -/
  FSdifDMATransfer : Nat → FSdifCmdData → Nat
  /-- Contents of the attached data buffer once the controller is done with
  it, by offset, given the memory at submission. -/
  dma : Nat → FSdifCmdData → Mem → Nat → Nat
  /-- Status returned by `rt_event_recv(event, set, option, timeout, &recved)`. -/
  rt_event_recv : Nat → Nat → Nat → Nat → Int
  /-- Response words stored into the descriptor by `FSdifGetCmdResponse`. -/
  FSdifGetCmdResponse : Nat → FSdifCmdData → Words4

/-- Modelled from the spec: the controller library (absent) moves data by DMA
only through the buffer attached to the descriptor it was given; a descriptor
without data leaves memory alone. -/
def dma_effect (o : Oracle) (n : Nat) (d : FSdifCmdData) (m : Mem) : Mem :=
  match d.data_p with
  | none => m
  | some dat =>
    fun a => if dat.buf ≤ a ∧ a < dat.buf + dat.datalen then o.dma n d m (a - dat.buf) else m a

/-- What one call of a transfer strategy leaves behind: the returned status,
the response slots `req->cmd->resp` of the request it was given, and the
world.  This is what `fsdif_dma_transfer`, the one strategy the driver installs
(source line 485), writes; the other fields of the request are read only. -/
structure TransferResult where
  status : Int
  resp : Words4
  world : World

/-- The type of `private_data->transfer`:
`rt_err_t (*transfer)(host, req, cmd_data_p)`.  `none` stands for a call that
does not return. -/
abbrev Strategy := World → rt_mmcsd_req → FSdifCmdData → Option TransferResult

/-! ## `fsdif_dma_transfer` (source lines 217–284) -/

/-- How the wait loop of `fsdif_dma_transfer` is left: by `break` after the
response was fetched, or by `return -RT_EIO`. -/
inductive WaitExit where
  | done (w : World) (req_cmd : FSdifCmdData)
  | error (w : World)

/-- The loop `while (TRUE) { ... }` of source lines 241–266.  One unit of
fuel pays for one iteration; `none` means the fuel ran out with the loop still
running. -/
def wait_loop (c : Consts) (o : Oracle) (wait_event : Nat) (req_cmd : FSdifCmdData) :
    Nat → World → Option WaitExit
  | 0, _ => none
  | fuel + 1, w =>
    let opt1 := c.RT_EVENT_FLAG_AND ||| c.RT_EVENT_FLAG_CLEAR ||| c.RT_WAITING_NO
    let r1 := o.rt_event_recv w.log.length wait_event opt1 5000
    let w := w.call (HwCall.rt_event_recv wait_event opt1 5000 r1)
    if r1 = c.RT_EOK then
      let raw := o.FSdifGetCmdResponse w.log.length req_cmd
      let w := w.call (HwCall.FSdifGetCmdResponse req_cmd raw)
      some (WaitExit.done w { req_cmd with response := raw })
    else
      let opt2 := c.RT_EVENT_FLAG_CLEAR ||| c.RT_WAITING_NO
      let r2 := o.rt_event_recv w.log.length SDIF_EVENT_ERROR_OCCUR opt2 5000
      let w := w.call (HwCall.rt_event_recv SDIF_EVENT_ERROR_OCCUR opt2 5000 r2)
      if r2 = c.RT_EOK then
        some (WaitExit.error w)
      else
        let w := w.call HwCall.fsdif_host_relax
        wait_loop c o wait_event req_cmd fuel w

/-- The response extraction of source lines 268–281: the new contents of
`req->cmd->resp`. -/
def extract_resp (c : Consts) (req : rt_mmcsd_req) (req_cmd : FSdifCmdData) : Words4 :=
  if resp_type c req.cmd &&& c.RESP_MASK ≠ 0 then
    if resp_type c req.cmd = c.RESP_R2 then
      let resp := req.cmd.resp
      let resp := { resp with w3 := req_cmd.response.w0 }
      let resp := { resp with w2 := req_cmd.response.w1 }
      let resp := { resp with w1 := req_cmd.response.w2 }
      let resp := { resp with w0 := req_cmd.response.w3 }
      resp
    else
      { req.cmd.resp with w0 := req_cmd.response.w0 }
  else
    req.cmd.resp

/-- The function `fsdif_dma_transfer(host, req, req_cmd)`. -/
def fsdif_dma_transfer (c : Consts) (o : Oracle) (fuel : Nat) : Strategy :=
  fun w req req_cmd =>
    let wait_event :=
      if req_cmd.data_p = none then SDIF_EVENT_COMMAND_DONE
      else SDIF_EVENT_COMMAND_DONE ||| SDIF_EVENT_DATA_DONE
    let ret := o.FSdifDMATransfer w.log.length req_cmd
    let w := { (w.call (HwCall.FSdifDMATransfer req_cmd ret)) with
                mem := dma_effect o w.log.length req_cmd w.mem }
    if ret ≠ c.FT_SUCCESS then
      some { status := - c.RT_ERROR, resp := req.cmd.resp, world := w }
    else
      match wait_loop c o wait_event req_cmd fuel w with
      | none => none
      | some (WaitExit.error w) =>
        some { status := - c.RT_EIO, resp := req.cmd.resp, world := w }
      | some (WaitExit.done w req_cmd) =>
        some { status := c.RT_EOK, resp := extract_resp c req req_cmd, world := w }

/-! ## `fsdif_request_send` (source lines 286–414) -/

/-- Calls made by `fsdif_request_send` itself.  A strategy call is recorded
with the descriptor it was given, the world it started from and what it
returned. -/
inductive Call where
  | rt_malloc_align (size align ret : Nat)
  | transfer (cmd_data : FSdifCmdData) (before : World) (result : TransferResult)
  | rt_free_align (ptr : Nat)
  | mmcsd_req_complete

/-- The request being served, the world, and the calls made so far. -/
structure State where
  req : rt_mmcsd_req
  world : World
  trace : List Call

/-- Record one call. -/
def State.call (s : State) (e : Call) : State :=
  { s with trace := s.trace ++ [e] }

/-- The label `skip_cmd:` — `mmcsd_req_complete(host)` (source lines 412–414). -/
def skip_cmd (s : State) : State :=
  s.call Call.mmcsd_req_complete

/-- The descriptor of the stop command (source lines 394–403); `flag` stands
for the field `req_stop.flag`. -/
def build_req_stop (c : Consts) (stop : rt_mmcsd_cmd) : FSdifCmdData :=
  let req_stop := FSdifCmdData.zero
  let req_stop := { req_stop with cmdidx := stop.cmd_code }
  let req_stop := { req_stop with cmdarg := stop.arg }
  let flag := req_stop.flag
  let flag :=
    if stop.flags &&& c.RESP_MASK ≠ 0 then
      let flag := flag ||| c.FSDIF_CMD_FLAG_READ_DATA
      if resp_type c stop = c.RESP_R2 then flag ||| c.FSDIF_CMD_FLAG_EXP_LONG_RESP else flag
    else flag
  { req_stop with flag := flag }

/-- Source lines 383–389: a read into a misaligned caller buffer is copied
back from the scratch buffer. -/
def copy_back (c : Consts) (data : Option rt_mmcsd_data) (data_buf_aligned datalen : Nat)
    (m : Mem) : Mem :=
  match data with
  | some data =>
    if data.flags &&& c.DATA_DIR_READ ≠ 0 then
      if data.buf % SDIF_DMA_ALIGN ≠ 0 then
        rt_memcpy m data.buf data_buf_aligned datalen
      else m
    else m
  | none => m

/-- Source lines 407–414: release the scratch buffer if there is one, then
complete the request. -/
def free_and_complete (s : State) (data_buf_aligned : Nat) : State :=
  let s := if data_buf_aligned ≠ 0 then s.call (Call.rt_free_align data_buf_aligned) else s
  skip_cmd s

/-- Source lines 376–414: run the main command, copy a misaligned read back,
run the stop command, release the scratch buffer, complete the request.
`data_buf_aligned` is `0` for the null pointer; `datalen` is
`req_data.datalen`. -/
def fsdif_request_send_transfer (c : Consts) (transfer : Strategy) (s : State)
    (req_cmd : FSdifCmdData) (data_buf_aligned datalen : Nat) : Option State :=
  /- do cmd and data transfer -/
  match transfer s.world s.req req_cmd with
  | none => none
  | some r =>
    let s := s.call (Call.transfer req_cmd s.world r)
    let s := { s with world := r.world,
                      req := { s.req with cmd := { s.req.cmd with resp := r.resp, err := r.status } } }
    let s := { s with world := { s.world with
                mem := copy_back c s.req.data data_buf_aligned datalen s.world.mem } }
    /- stop cmd -/
    match s.req.stop with
    | some stop =>
      let req_stop := build_req_stop c stop
      match transfer s.world s.req req_stop with
      | none => none
      | some r =>
        let s := s.call (Call.transfer req_stop s.world r)
        let s := { s with world := r.world,
                          req := { s.req with cmd := { s.req.cmd with resp := r.resp },
                                              stop := some { stop with err := r.status } } }
        some (free_and_complete s data_buf_aligned)
    | none => some (free_and_complete s data_buf_aligned)

/-- The function `fsdif_request_send(host, req)`.  `rt_malloc_align size align`
is the pointer the allocator returns (`0` for null), `transfer` is
`private_data->transfer`.  The local `flag` stands for the field
`req_cmd.flag`, which the source updates in place. -/
def fsdif_request_send (c : Consts) (rt_malloc_align : Nat → Nat → Nat)
    (transfer : Strategy) (s : State) : Option State :=
  /- ignore some SDIF-ONIY cmd -/
  if s.req.cmd.cmd_code = c.SD_IO_SEND_OP_COND ∨ s.req.cmd.cmd_code = c.SD_IO_RW_DIRECT then
    some (skip_cmd { s with req := { s.req with cmd := { s.req.cmd with err := -1 } } })
  else
    let cmd_flag := resp_type c s.req.cmd
    let req_cmd := FSdifCmdData.zero
    let req_data := FSdifData.zero
    let flag := req_cmd.flag
    /- convert req into ft driver type -/
    let flag :=
      if s.req.cmd.cmd_code = c.GO_IDLE_STATE then flag ||| c.FSDIF_CMD_FLAG_NEED_INIT
      else flag
    let flag :=
      if s.req.cmd.cmd_code = c.GO_INACTIVE_STATE then flag ||| c.FSDIF_CMD_FLAG_NEED_AUTO_STOP
      else flag
    let flag :=
      if cmd_flag ≠ c.RESP_R3 ∧ cmd_flag ≠ c.RESP_R4 ∧ cmd_flag ≠ c.RESP_NONE then
        flag ||| c.FSDIF_CMD_FLAG_NEED_RESP_CRC
      else flag
    let flag :=
      if cmd_flag &&& c.RESP_MASK ≠ 0 then
        let flag := flag ||| c.FSDIF_CMD_FLAG_EXP_RESP
        if cmd_flag = c.RESP_R2 then flag ||| c.FSDIF_CMD_FLAG_EXP_LONG_RESP else flag
      else flag
    match s.req.data with
    | some data =>
      /- transfer command with data -/
      let size := (SDIF_DMA_BLK_SZ * data.blks) % U32
      let data_buf_aligned := rt_malloc_align size SDIF_DMA_ALIGN
      let s := s.call (Call.rt_malloc_align size SDIF_DMA_ALIGN data_buf_aligned)
      if data_buf_aligned = 0 then
        some s
      else
        let mem := rt_memset s.world.mem data_buf_aligned 0 size
        let flag := flag ||| c.FSDIF_CMD_FLAG_EXP_DATA
        let req_data := { req_data with blksz := data.blksize }
        let req_data := { req_data with blkcnt := (data.blks + c.CONFIG_SDCARD_OFFSET) % U32 }
        let req_data := { req_data with datalen := (data.blksize * data.blks) % U32 }
        /- data buffer should be 512-aligned -/
        let mem :=
          if data.buf % SDIF_DMA_ALIGN ≠ 0 then
            if data.flags &&& c.DATA_DIR_WRITE ≠ 0 then
              rt_memcpy mem data_buf_aligned data.buf req_data.datalen
            else mem
          else mem
        let req_data :=
          if data.buf % SDIF_DMA_ALIGN ≠ 0 then
            { req_data with buf := data_buf_aligned,
                            buf_dma := (data_buf_aligned + c.PV_OFFSET) % UPTR }
          else
            { req_data with buf := data.buf,
                            buf_dma := (data.buf + c.PV_OFFSET) % UPTR }
        let req_cmd := { req_cmd with data_p := some req_data }
        let flag :=
          if data.flags &&& c.DATA_DIR_READ ≠ 0 then flag ||| c.FSDIF_CMD_FLAG_READ_DATA
          else if data.flags &&& c.DATA_DIR_WRITE ≠ 0 then flag ||| c.FSDIF_CMD_FLAG_WRITE_DATA
          else flag
        let req_cmd := { req_cmd with flag := flag }
        let req_cmd := { req_cmd with cmdidx := s.req.cmd.cmd_code }
        let req_cmd := { req_cmd with cmdarg := s.req.cmd.arg }
        let s := { s with world := { s.world with mem := mem } }
        fsdif_request_send_transfer c transfer s req_cmd data_buf_aligned req_data.datalen
    | none =>
      let req_cmd := { req_cmd with flag := flag }
      let req_cmd := { req_cmd with cmdidx := s.req.cmd.cmd_code }
      let req_cmd := { req_cmd with cmdarg := s.req.cmd.arg }
      fsdif_request_send_transfer c transfer s req_cmd 0 req_data.datalen

/-! ## What `fsdif_request_send` computes, piece by piece -/

/-- The state in which a request enters the driver. -/
def State.init (req : rt_mmcsd_req) (w : World) : State :=
  { req := req, world := w, trace := [] }

/-- A strategy that returns on every input. -/
def Strategy.total (t : World → rt_mmcsd_req → FSdifCmdData → TransferResult) : Strategy :=
  fun w req d => some (t w req d)

/-- A request carries one of the two command codes the driver refuses. -/
def reserved (c : Consts) (req : rt_mmcsd_req) : Prop :=
  req.cmd.cmd_code = c.SD_IO_SEND_OP_COND ∨ req.cmd.cmd_code = c.SD_IO_RW_DIRECT

instance (c : Consts) (req : rt_mmcsd_req) : Decidable (reserved c req) := by
  unfold reserved; infer_instance

/-- Flag word of the main descriptor after source lines 307–330. -/
def cmd_flag_word (c : Consts) (cmd : rt_mmcsd_cmd) : Nat :=
  let f1 := if cmd.cmd_code = c.GO_IDLE_STATE then 0 ||| c.FSDIF_CMD_FLAG_NEED_INIT else 0
  let f2 := if cmd.cmd_code = c.GO_INACTIVE_STATE then f1 ||| c.FSDIF_CMD_FLAG_NEED_AUTO_STOP else f1
  let f3 :=
    if resp_type c cmd ≠ c.RESP_R3 ∧ resp_type c cmd ≠ c.RESP_R4 ∧ resp_type c cmd ≠ c.RESP_NONE
    then f2 ||| c.FSDIF_CMD_FLAG_NEED_RESP_CRC else f2
  if resp_type c cmd &&& c.RESP_MASK ≠ 0 then
    if resp_type c cmd = c.RESP_R2 then
      f3 ||| c.FSDIF_CMD_FLAG_EXP_RESP ||| c.FSDIF_CMD_FLAG_EXP_LONG_RESP
    else f3 ||| c.FSDIF_CMD_FLAG_EXP_RESP
  else f3

/-- Flag word of the main descriptor of a request with data (source lines
342 and 363–370). -/
def data_flag_word (c : Consts) (cmd : rt_mmcsd_cmd) (data : rt_mmcsd_data) : Nat :=
  if data.flags &&& c.DATA_DIR_READ ≠ 0 then
    cmd_flag_word c cmd ||| c.FSDIF_CMD_FLAG_EXP_DATA ||| c.FSDIF_CMD_FLAG_READ_DATA
  else if data.flags &&& c.DATA_DIR_WRITE ≠ 0 then
    cmd_flag_word c cmd ||| c.FSDIF_CMD_FLAG_EXP_DATA ||| c.FSDIF_CMD_FLAG_WRITE_DATA
  else cmd_flag_word c cmd ||| c.FSDIF_CMD_FLAG_EXP_DATA

/-- Transfer length `req_data.datalen`. -/
def datalen (data : rt_mmcsd_data) : Nat := (data.blksize * data.blks) % U32

/-- Size of the scratch allocation. -/
def scratch_size (data : rt_mmcsd_data) : Nat := (SDIF_DMA_BLK_SZ * data.blks) % U32

/-- The data descriptor built for a request whose scratch buffer is `p`. -/
def main_req_data (c : Consts) (data : rt_mmcsd_data) (p : Nat) : FSdifData :=
  if data.buf % SDIF_DMA_ALIGN ≠ 0 then
    { buf := p, buf_dma := (p + c.PV_OFFSET) % UPTR, blksz := data.blksize,
      blkcnt := (data.blks + c.CONFIG_SDCARD_OFFSET) % U32, datalen := datalen data }
  else
    { buf := data.buf, buf_dma := (data.buf + c.PV_OFFSET) % UPTR, blksz := data.blksize,
      blkcnt := (data.blks + c.CONFIG_SDCARD_OFFSET) % U32, datalen := datalen data }

/-- The main descriptor of a request without data. -/
def main_desc_nodata (c : Consts) (cmd : rt_mmcsd_cmd) : FSdifCmdData :=
  { cmdidx := cmd.cmd_code, cmdarg := cmd.arg, response := ⟨0, 0, 0, 0⟩,
    flag := cmd_flag_word c cmd, data_p := none }

/-- The main descriptor of a request with data whose scratch buffer is `p`. -/
def main_desc_data (c : Consts) (cmd : rt_mmcsd_cmd) (data : rt_mmcsd_data) (p : Nat) :
    FSdifCmdData :=
  { cmdidx := cmd.cmd_code, cmdarg := cmd.arg, response := ⟨0, 0, 0, 0⟩,
    flag := data_flag_word c cmd data, data_p := some (main_req_data c data p) }

/-- Memory handed to the main transfer of a request with data. -/
def main_mem (c : Consts) (data : rt_mmcsd_data) (p : Nat) (m : Mem) : Mem :=
  if data.buf % SDIF_DMA_ALIGN ≠ 0 then
    if data.flags &&& c.DATA_DIR_WRITE ≠ 0 then
      rt_memcpy (rt_memset m p 0 (scratch_size data)) p data.buf (datalen data)
    else rt_memset m p 0 (scratch_size data)
  else rt_memset m p 0 (scratch_size data)

/-- State after the main transfer returned `r` and a misaligned read was
copied back (source lines 377–389). -/
def after_main (c : Consts) (s : State) (req_cmd : FSdifCmdData) (p L : Nat)
    (r : TransferResult) : State :=
  { req := { s.req with cmd := { s.req.cmd with resp := r.resp, err := r.status } },
    world := { r.world with mem := copy_back c s.req.data p L r.world.mem },
    trace := s.trace ++ [Call.transfer req_cmd s.world r] }

/-- State after the stop transfer returned `r` (source lines 392–405). -/
def after_stop (s : State) (stop : rt_mmcsd_cmd) (req_stop : FSdifCmdData)
    (r : TransferResult) : State :=
  { req := { s.req with cmd := { s.req.cmd with resp := r.resp },
                        stop := some { stop with err := r.status } },
    world := r.world,
    trace := s.trace ++ [Call.transfer req_stop s.world r] }

/-- The eight descriptor flags of well-formed constants form a table: each
flag is set in itself and in no other. -/
def Consts.FlagTable (c : Consts) : Prop :=
    hasFlag c.FSDIF_CMD_FLAG_NEED_INIT c.FSDIF_CMD_FLAG_NEED_INIT ∧
    ¬ hasFlag c.FSDIF_CMD_FLAG_NEED_INIT c.FSDIF_CMD_FLAG_NEED_AUTO_STOP ∧
    ¬ hasFlag c.FSDIF_CMD_FLAG_NEED_INIT c.FSDIF_CMD_FLAG_NEED_RESP_CRC ∧
    ¬ hasFlag c.FSDIF_CMD_FLAG_NEED_INIT c.FSDIF_CMD_FLAG_EXP_RESP ∧
    ¬ hasFlag c.FSDIF_CMD_FLAG_NEED_INIT c.FSDIF_CMD_FLAG_EXP_LONG_RESP ∧
    ¬ hasFlag c.FSDIF_CMD_FLAG_NEED_INIT c.FSDIF_CMD_FLAG_EXP_DATA ∧
    ¬ hasFlag c.FSDIF_CMD_FLAG_NEED_INIT c.FSDIF_CMD_FLAG_READ_DATA ∧
    ¬ hasFlag c.FSDIF_CMD_FLAG_NEED_INIT c.FSDIF_CMD_FLAG_WRITE_DATA ∧
    ¬ hasFlag c.FSDIF_CMD_FLAG_NEED_AUTO_STOP c.FSDIF_CMD_FLAG_NEED_INIT ∧
    hasFlag c.FSDIF_CMD_FLAG_NEED_AUTO_STOP c.FSDIF_CMD_FLAG_NEED_AUTO_STOP ∧
    ¬ hasFlag c.FSDIF_CMD_FLAG_NEED_AUTO_STOP c.FSDIF_CMD_FLAG_NEED_RESP_CRC ∧
    ¬ hasFlag c.FSDIF_CMD_FLAG_NEED_AUTO_STOP c.FSDIF_CMD_FLAG_EXP_RESP ∧
    ¬ hasFlag c.FSDIF_CMD_FLAG_NEED_AUTO_STOP c.FSDIF_CMD_FLAG_EXP_LONG_RESP ∧
    ¬ hasFlag c.FSDIF_CMD_FLAG_NEED_AUTO_STOP c.FSDIF_CMD_FLAG_EXP_DATA ∧
    ¬ hasFlag c.FSDIF_CMD_FLAG_NEED_AUTO_STOP c.FSDIF_CMD_FLAG_READ_DATA ∧
    ¬ hasFlag c.FSDIF_CMD_FLAG_NEED_AUTO_STOP c.FSDIF_CMD_FLAG_WRITE_DATA ∧
    ¬ hasFlag c.FSDIF_CMD_FLAG_NEED_RESP_CRC c.FSDIF_CMD_FLAG_NEED_INIT ∧
    ¬ hasFlag c.FSDIF_CMD_FLAG_NEED_RESP_CRC c.FSDIF_CMD_FLAG_NEED_AUTO_STOP ∧
    hasFlag c.FSDIF_CMD_FLAG_NEED_RESP_CRC c.FSDIF_CMD_FLAG_NEED_RESP_CRC ∧
    ¬ hasFlag c.FSDIF_CMD_FLAG_NEED_RESP_CRC c.FSDIF_CMD_FLAG_EXP_RESP ∧
    ¬ hasFlag c.FSDIF_CMD_FLAG_NEED_RESP_CRC c.FSDIF_CMD_FLAG_EXP_LONG_RESP ∧
    ¬ hasFlag c.FSDIF_CMD_FLAG_NEED_RESP_CRC c.FSDIF_CMD_FLAG_EXP_DATA ∧
    ¬ hasFlag c.FSDIF_CMD_FLAG_NEED_RESP_CRC c.FSDIF_CMD_FLAG_READ_DATA ∧
    ¬ hasFlag c.FSDIF_CMD_FLAG_NEED_RESP_CRC c.FSDIF_CMD_FLAG_WRITE_DATA ∧
    ¬ hasFlag c.FSDIF_CMD_FLAG_EXP_RESP c.FSDIF_CMD_FLAG_NEED_INIT ∧
    ¬ hasFlag c.FSDIF_CMD_FLAG_EXP_RESP c.FSDIF_CMD_FLAG_NEED_AUTO_STOP ∧
    ¬ hasFlag c.FSDIF_CMD_FLAG_EXP_RESP c.FSDIF_CMD_FLAG_NEED_RESP_CRC ∧
    hasFlag c.FSDIF_CMD_FLAG_EXP_RESP c.FSDIF_CMD_FLAG_EXP_RESP ∧
    ¬ hasFlag c.FSDIF_CMD_FLAG_EXP_RESP c.FSDIF_CMD_FLAG_EXP_LONG_RESP ∧
    ¬ hasFlag c.FSDIF_CMD_FLAG_EXP_RESP c.FSDIF_CMD_FLAG_EXP_DATA ∧
    ¬ hasFlag c.FSDIF_CMD_FLAG_EXP_RESP c.FSDIF_CMD_FLAG_READ_DATA ∧
    ¬ hasFlag c.FSDIF_CMD_FLAG_EXP_RESP c.FSDIF_CMD_FLAG_WRITE_DATA ∧
    ¬ hasFlag c.FSDIF_CMD_FLAG_EXP_LONG_RESP c.FSDIF_CMD_FLAG_NEED_INIT ∧
    ¬ hasFlag c.FSDIF_CMD_FLAG_EXP_LONG_RESP c.FSDIF_CMD_FLAG_NEED_AUTO_STOP ∧
    ¬ hasFlag c.FSDIF_CMD_FLAG_EXP_LONG_RESP c.FSDIF_CMD_FLAG_NEED_RESP_CRC ∧
    ¬ hasFlag c.FSDIF_CMD_FLAG_EXP_LONG_RESP c.FSDIF_CMD_FLAG_EXP_RESP ∧
    hasFlag c.FSDIF_CMD_FLAG_EXP_LONG_RESP c.FSDIF_CMD_FLAG_EXP_LONG_RESP ∧
    ¬ hasFlag c.FSDIF_CMD_FLAG_EXP_LONG_RESP c.FSDIF_CMD_FLAG_EXP_DATA ∧
    ¬ hasFlag c.FSDIF_CMD_FLAG_EXP_LONG_RESP c.FSDIF_CMD_FLAG_READ_DATA ∧
    ¬ hasFlag c.FSDIF_CMD_FLAG_EXP_LONG_RESP c.FSDIF_CMD_FLAG_WRITE_DATA ∧
    ¬ hasFlag c.FSDIF_CMD_FLAG_EXP_DATA c.FSDIF_CMD_FLAG_NEED_INIT ∧
    ¬ hasFlag c.FSDIF_CMD_FLAG_EXP_DATA c.FSDIF_CMD_FLAG_NEED_AUTO_STOP ∧
    ¬ hasFlag c.FSDIF_CMD_FLAG_EXP_DATA c.FSDIF_CMD_FLAG_NEED_RESP_CRC ∧
    ¬ hasFlag c.FSDIF_CMD_FLAG_EXP_DATA c.FSDIF_CMD_FLAG_EXP_RESP ∧
    ¬ hasFlag c.FSDIF_CMD_FLAG_EXP_DATA c.FSDIF_CMD_FLAG_EXP_LONG_RESP ∧
    hasFlag c.FSDIF_CMD_FLAG_EXP_DATA c.FSDIF_CMD_FLAG_EXP_DATA ∧
    ¬ hasFlag c.FSDIF_CMD_FLAG_EXP_DATA c.FSDIF_CMD_FLAG_READ_DATA ∧
    ¬ hasFlag c.FSDIF_CMD_FLAG_EXP_DATA c.FSDIF_CMD_FLAG_WRITE_DATA ∧
    ¬ hasFlag c.FSDIF_CMD_FLAG_READ_DATA c.FSDIF_CMD_FLAG_NEED_INIT ∧
    ¬ hasFlag c.FSDIF_CMD_FLAG_READ_DATA c.FSDIF_CMD_FLAG_NEED_AUTO_STOP ∧
    ¬ hasFlag c.FSDIF_CMD_FLAG_READ_DATA c.FSDIF_CMD_FLAG_NEED_RESP_CRC ∧
    ¬ hasFlag c.FSDIF_CMD_FLAG_READ_DATA c.FSDIF_CMD_FLAG_EXP_RESP ∧
    ¬ hasFlag c.FSDIF_CMD_FLAG_READ_DATA c.FSDIF_CMD_FLAG_EXP_LONG_RESP ∧
    ¬ hasFlag c.FSDIF_CMD_FLAG_READ_DATA c.FSDIF_CMD_FLAG_EXP_DATA ∧
    hasFlag c.FSDIF_CMD_FLAG_READ_DATA c.FSDIF_CMD_FLAG_READ_DATA ∧
    ¬ hasFlag c.FSDIF_CMD_FLAG_READ_DATA c.FSDIF_CMD_FLAG_WRITE_DATA ∧
    ¬ hasFlag c.FSDIF_CMD_FLAG_WRITE_DATA c.FSDIF_CMD_FLAG_NEED_INIT ∧
    ¬ hasFlag c.FSDIF_CMD_FLAG_WRITE_DATA c.FSDIF_CMD_FLAG_NEED_AUTO_STOP ∧
    ¬ hasFlag c.FSDIF_CMD_FLAG_WRITE_DATA c.FSDIF_CMD_FLAG_NEED_RESP_CRC ∧
    ¬ hasFlag c.FSDIF_CMD_FLAG_WRITE_DATA c.FSDIF_CMD_FLAG_EXP_RESP ∧
    ¬ hasFlag c.FSDIF_CMD_FLAG_WRITE_DATA c.FSDIF_CMD_FLAG_EXP_LONG_RESP ∧
    ¬ hasFlag c.FSDIF_CMD_FLAG_WRITE_DATA c.FSDIF_CMD_FLAG_EXP_DATA ∧
    ¬ hasFlag c.FSDIF_CMD_FLAG_WRITE_DATA c.FSDIF_CMD_FLAG_READ_DATA ∧
    hasFlag c.FSDIF_CMD_FLAG_WRITE_DATA c.FSDIF_CMD_FLAG_WRITE_DATA

/-! ## Reading the logs -/

/-- The call is `rt_free_align`. -/
def Call.isFree : Call → Bool
  | Call.rt_free_align _ => true
  | _ => false

/-- The call is `mmcsd_req_complete`. -/
def Call.isComplete : Call → Bool
  | Call.mmcsd_req_complete => true
  | _ => false

/-- The call is a call of the transfer strategy. -/
def Call.isTransfer : Call → Bool
  | Call.transfer _ _ _ => true
  | _ => false

/-- The call is an `rt_malloc_align` that returned a buffer. -/
def Call.isAllocOk : Call → Bool
  | Call.rt_malloc_align _ _ ret => decide (ret ≠ 0)
  | _ => false

/-- The descriptors handed to the transfer strategy, in call order. -/
def transfers : List Call → List FSdifCmdData
  | [] => []
  | Call.transfer d _ _ :: rest => d :: transfers rest
  | _ :: rest => transfers rest

/-- The call is `FSdifGetCmdResponse`. -/
def HwCall.isGetCmdResponse : HwCall → Bool
  | HwCall.FSdifGetCmdResponse _ _ => true
  | _ => false

/-- The event mask `fsdif_dma_transfer` waits for (source lines 225–232). -/
def wait_event_of (req_cmd : FSdifCmdData) : Nat :=
  if req_cmd.data_p = none then SDIF_EVENT_COMMAND_DONE
  else SDIF_EVENT_COMMAND_DONE ||| SDIF_EVENT_DATA_DONE

/-- The world right after `FSdifDMATransfer` was called on `req_cmd`. -/
def submitted (o : Oracle) (w : World) (req_cmd : FSdifCmdData) : World :=
  { mem := dma_effect o w.log.length req_cmd w.mem,
    log := w.log ++ [HwCall.FSdifDMATransfer req_cmd (o.FSdifDMATransfer w.log.length req_cmd)] }

/-- Status of the primary wait of the loop when `n` hardware-side calls were
made before it (calls are numbered by their position in the log). -/
def primary_wait (c : Consts) (o : Oracle) (req_cmd : FSdifCmdData) (n : Nat) : Int :=
  o.rt_event_recv n (wait_event_of req_cmd)
    (c.RT_EVENT_FLAG_AND ||| c.RT_EVENT_FLAG_CLEAR ||| c.RT_WAITING_NO) 5000

/-- Status of the secondary wait of the loop when `n` hardware-side calls were
made before it. -/
def secondary_wait (c : Consts) (o : Oracle) (n : Nat) : Int :=
  o.rt_event_recv n SDIF_EVENT_ERROR_OCCUR (c.RT_EVENT_FLAG_CLEAR ||| c.RT_WAITING_NO) 5000

/-- The data direction has the read bit. -/
def dir_read (c : Consts) (data : rt_mmcsd_data) : Prop := data.flags &&& c.DATA_DIR_READ ≠ 0

/-- The data direction has the write bit. -/
def dir_write (c : Consts) (data : rt_mmcsd_data) : Prop := data.flags &&& c.DATA_DIR_WRITE ≠ 0

instance (c : Consts) (data : rt_mmcsd_data) : Decidable (dir_read c data) := by
  unfold dir_read; infer_instance

instance (c : Consts) (data : rt_mmcsd_data) : Decidable (dir_write c data) := by
  unfold dir_write; infer_instance

/-! ## Concrete inputs -/

/-- An allocator that always fails. -/
def alloc_null : Nat → Nat → Nat := fun _ _ => 0

/-- An allocator that returns the 512-aligned address `0x2000`. -/
def alloc_2000 : Nat → Nat → Nat := fun _ _ => 0x2000

/-- Hardware that accepts every submission and completes it at the first
wait, with response words `[10, 11, 12, 13]` and `0xAA` in every byte moved. -/
def hw_ok : Oracle where
  FSdifDMATransfer := fun _ _ => 0
  dma := fun _ _ _ _ => 0xAA
  rt_event_recv := fun _ _ _ _ => 0
  FSdifGetCmdResponse := fun _ _ => ⟨10, 11, 12, 13⟩

/-- Hardware that refuses every submission. -/
def hw_reject : Oracle where
  FSdifDMATransfer := fun _ _ => 1
  dma := fun _ _ m i => m i
  rt_event_recv := fun _ _ _ _ => 0
  FSdifGetCmdResponse := fun _ _ => ⟨10, 11, 12, 13⟩

/-- Hardware that accepts the submission, lets the first iteration of the wait
loop pass with nothing, and raises the error event in the second one. -/
def hw_error : Oracle where
  FSdifDMATransfer := fun _ _ => 0
  dma := fun _ _ m i => m i
  rt_event_recv := fun n _ _ _ => if n = 5 then 0 else -2
  FSdifGetCmdResponse := fun _ _ => ⟨10, 11, 12, 13⟩

/-- A world with recognisable memory contents and no calls made. -/
def world0 : World := { mem := fun a => a % 251, log := [] }

/-- A strategy that always reports success, leaves the response slots alone
and lets the controller fill an attached buffer. -/
def strat_ok (w : World) (req : rt_mmcsd_req) (d : FSdifCmdData) : TransferResult :=
  { status := 0, resp := req.cmd.resp,
    world := { w with mem := dma_effect hw_ok w.log.length d w.mem } }

/-- READ_SINGLE_BLOCK (CMD17, response R1) of one 512-byte block into a buffer
at `0x1008`, 8 bytes off the alignment. -/
def req_read_single : rt_mmcsd_req :=
  { cmd := { cmd_code := 17, arg := 0, resp := ⟨0, 0, 0, 0⟩, flags := 1, err := 0 },
    data := some { blksize := 512, blks := 1, buf := 0x1008, flags := 2 },
    stop := none }

/-- WRITE_MULTIPLE_BLOCK (CMD25, response R1) of two blocks from an aligned
buffer, followed by STOP_TRANSMISSION (CMD12, response R1B). -/
def req_write_multi : rt_mmcsd_req :=
  { cmd := { cmd_code := 25, arg := 0, resp := ⟨0, 0, 0, 0⟩, flags := 1, err := 0 },
    data := some { blksize := 512, blks := 2, buf := 0x4000, flags := 1 },
    stop := some { cmd_code := 12, arg := 0, resp := ⟨0, 0, 0, 0⟩, flags := 2, err := 0 } }

/-- SEND_CID-like command (CMD2, response R2) without data. -/
def req_r2 : rt_mmcsd_req :=
  { cmd := { cmd_code := 2, arg := 0, resp := ⟨0, 0, 0, 0⟩, flags := 3, err := 0 },
    data := none, stop := none }

/-- A command without response (response type none) whose response slots hold
`[1, 2, 3, 4]`, followed by a stop command with response R1B. -/
def req_noresp_stop : rt_mmcsd_req :=
  { cmd := { cmd_code := 4, arg := 0, resp := ⟨1, 2, 3, 4⟩, flags := 0, err := 0 },
    data := none,
    stop := some { cmd_code := 12, arg := 0, resp := ⟨0, 0, 0, 0⟩, flags := 2, err := 0 } }

/-- IO_RW_DIRECT (CMD52), one of the two refused command codes. -/
def req_sdio : rt_mmcsd_req :=
  { cmd := { cmd_code := 52, arg := 0, resp := ⟨0, 0, 0, 0⟩, flags := 1, err := 0 },
    data := none, stop := none }

/-- The descriptor `fsdif_request_send` builds for `req_r2`. -/
def desc_r2 : FSdifCmdData := main_desc_nodata stdConsts req_r2.cmd

/-- What `fsdif_dma_transfer` returns for `req_r2` on hardware `hw_ok`. -/
def result_r2 : TransferResult :=
  (fsdif_dma_transfer stdConsts hw_ok 1 world0 req_r2 desc_r2).get rfl

/-- What `fsdif_request_send` leaves behind for `req_write_multi` on hardware
`hw_ok` with the scratch buffer at `0x2000`. -/
def final_write_multi : State :=
  (fsdif_request_send stdConsts alloc_2000 (fsdif_dma_transfer stdConsts hw_ok 1)
    (State.init req_write_multi world0)).get rfl

/-! # Theorems -/

/-! ## Flag words -/

theorem lor_eq_zero_iff (a b : Nat) : a ||| b = 0 ↔ a = 0 ∧ b = 0 := by
  constructor
  · intro h
    constructor
    · apply Nat.eq_of_testBit_eq
      intro i
      have := congrArg (fun x => Nat.testBit x i) h
      simp only [Nat.testBit_or, Nat.zero_testBit, Bool.or_eq_false_iff] at this
      simp [this.1]
    · apply Nat.eq_of_testBit_eq
      intro i
      have := congrArg (fun x => Nat.testBit x i) h
      simp only [Nat.testBit_or, Nat.zero_testBit, Bool.or_eq_false_iff] at this
      simp [this.2]
  · rintro ⟨rfl, rfl⟩
    rfl

theorem hasFlag_or (a b f : Nat) : hasFlag (a ||| b) f ↔ hasFlag a f ∨ hasFlag b f := by
  unfold hasFlag
  rw [Nat.and_distrib_right, Ne, lor_eq_zero_iff]
  tauto

theorem hasFlag_zero (f : Nat) : ¬ hasFlag 0 f := by
  simp [hasFlag]

theorem hasFlag_self {f : Nat} (h : f ≠ 0) : hasFlag f f := by
  simpa [hasFlag] using h

theorem hasFlag_disjoint {g f : Nat} (h : g &&& f = 0) : ¬ hasFlag g f := by
  simp [hasFlag, h]

theorem hasFlag_disjoint_symm {g f : Nat} (h : f &&& g = 0) : ¬ hasFlag g f := by
  rw [Nat.and_comm] at h
  simp [hasFlag, h]

theorem stdConsts_wf : stdConsts.WellFormed := by
  unfold Consts.WellFormed Consts.cmdFlags stdConsts
  simp
  decide

theorem wf_flag_table (c : Consts) (hwf : c.WellFormed) : c.FlagTable := by
  obtain ⟨-, -, hnz, hpw, -, -, -⟩ := hwf
  simp only [Consts.cmdFlags, List.mem_cons, List.mem_singleton, forall_eq_or_imp, forall_eq,
    List.pairwise_cons, List.not_mem_nil, false_implies, implies_true, and_true,
    List.Pairwise.nil] at hnz hpw
  obtain ⟨n1, n2, n3, n4, n5, n6, n7, n8⟩ := hnz
  obtain ⟨⟨a2, a3, a4, a5, a6, a7, a8⟩, ⟨b3, b4, b5, b6, b7, b8⟩, ⟨c4, c5, c6, c7, c8⟩,
    ⟨d5, d6, d7, d8⟩, ⟨e6, e7, e8⟩, ⟨f7, f8⟩, g8⟩ := hpw
  exact ⟨hasFlag_self n1,
    hasFlag_disjoint a2,
    hasFlag_disjoint a3,
    hasFlag_disjoint a4,
    hasFlag_disjoint a5,
    hasFlag_disjoint a6,
    hasFlag_disjoint a7,
    hasFlag_disjoint a8,
    hasFlag_disjoint_symm a2,
    hasFlag_self n2,
    hasFlag_disjoint b3,
    hasFlag_disjoint b4,
    hasFlag_disjoint b5,
    hasFlag_disjoint b6,
    hasFlag_disjoint b7,
    hasFlag_disjoint b8,
    hasFlag_disjoint_symm a3,
    hasFlag_disjoint_symm b3,
    hasFlag_self n3,
    hasFlag_disjoint c4,
    hasFlag_disjoint c5,
    hasFlag_disjoint c6,
    hasFlag_disjoint c7,
    hasFlag_disjoint c8,
    hasFlag_disjoint_symm a4,
    hasFlag_disjoint_symm b4,
    hasFlag_disjoint_symm c4,
    hasFlag_self n4,
    hasFlag_disjoint d5,
    hasFlag_disjoint d6,
    hasFlag_disjoint d7,
    hasFlag_disjoint d8,
    hasFlag_disjoint_symm a5,
    hasFlag_disjoint_symm b5,
    hasFlag_disjoint_symm c5,
    hasFlag_disjoint_symm d5,
    hasFlag_self n5,
    hasFlag_disjoint e6,
    hasFlag_disjoint e7,
    hasFlag_disjoint e8,
    hasFlag_disjoint_symm a6,
    hasFlag_disjoint_symm b6,
    hasFlag_disjoint_symm c6,
    hasFlag_disjoint_symm d6,
    hasFlag_disjoint_symm e6,
    hasFlag_self n6,
    hasFlag_disjoint f7,
    hasFlag_disjoint f8,
    hasFlag_disjoint_symm a7,
    hasFlag_disjoint_symm b7,
    hasFlag_disjoint_symm c7,
    hasFlag_disjoint_symm d7,
    hasFlag_disjoint_symm e7,
    hasFlag_disjoint_symm f7,
    hasFlag_self n7,
    hasFlag_disjoint g8,
    hasFlag_disjoint_symm a8,
    hasFlag_disjoint_symm b8,
    hasFlag_disjoint_symm c8,
    hasFlag_disjoint_symm d8,
    hasFlag_disjoint_symm e8,
    hasFlag_disjoint_symm f8,
    hasFlag_disjoint_symm g8,
    hasFlag_self n8⟩

/-! ## Unfolding lemmas -/

theorem request_send_reserved (c : Consts) (m : Nat → Nat → Nat) (t : Strategy) (s : State)
    (hres : reserved c s.req) :
    fsdif_request_send c m t s =
      some (skip_cmd { s with req := { s.req with cmd := { s.req.cmd with err := -1 } } }) := by
  unfold reserved at hres
  unfold fsdif_request_send
  rw [if_pos hres]

theorem request_send_nodata (c : Consts) (m : Nat → Nat → Nat) (t : Strategy) (s : State)
    (hres : ¬ reserved c s.req) (hd : s.req.data = none) :
    fsdif_request_send c m t s =
      fsdif_request_send_transfer c t s (main_desc_nodata c s.req.cmd) 0 0 := by
  unfold reserved at hres
  unfold fsdif_request_send
  rw [if_neg hres]
  simp only [hd]
  rfl

theorem request_send_alloc_fail (c : Consts) (m : Nat → Nat → Nat) (t : Strategy) (s : State)
    (data : rt_mmcsd_data)
    (hres : ¬ reserved c s.req) (hd : s.req.data = some data)
    (hp : m (scratch_size data) SDIF_DMA_ALIGN = 0) :
    fsdif_request_send c m t s =
      some (s.call (Call.rt_malloc_align (scratch_size data) SDIF_DMA_ALIGN 0)) := by
  unfold reserved at hres
  unfold scratch_size at hp
  unfold fsdif_request_send
  rw [if_neg hres]
  simp only [hd, hp, if_true, scratch_size]

theorem request_send_data (c : Consts) (m : Nat → Nat → Nat) (t : Strategy) (s : State)
    (data : rt_mmcsd_data)
    (hres : ¬ reserved c s.req) (hd : s.req.data = some data)
    (hp : m (scratch_size data) SDIF_DMA_ALIGN ≠ 0) :
    fsdif_request_send c m t s =
      fsdif_request_send_transfer c t
        { req := s.req,
          world := { s.world with
            mem := main_mem c data (m (scratch_size data) SDIF_DMA_ALIGN) s.world.mem },
          trace := s.trace ++ [Call.rt_malloc_align (scratch_size data) SDIF_DMA_ALIGN
                                (m (scratch_size data) SDIF_DMA_ALIGN)] }
        (main_desc_data c s.req.cmd data (m (scratch_size data) SDIF_DMA_ALIGN))
        (m (scratch_size data) SDIF_DMA_ALIGN) (datalen data) := by
  unfold reserved at hres
  unfold scratch_size at hp
  unfold fsdif_request_send
  rw [if_neg hres]
  simp only [hd, if_neg hp]
  simp only [main_desc_data, main_mem, cmd_flag_word, data_flag_word, main_req_data, datalen,
    scratch_size, FSdifCmdData.zero, FSdifData.zero, State.call]
  congr 1
  split_ifs <;> rfl

theorem transfer_part_nostop (c : Consts) (t : Strategy) (s : State) (d : FSdifCmdData)
    (p L : Nat) (r : TransferResult)
    (hstop : s.req.stop = none) (h1 : t s.world s.req d = some r) :
    fsdif_request_send_transfer c t s d p L =
      some (free_and_complete (after_main c s d p L r) p) := by
  obtain ⟨⟨cmd, data, stp⟩, w, tr⟩ := s
  simp only at hstop h1
  subst hstop
  simp only [fsdif_request_send_transfer, h1, after_main, State.call]

theorem transfer_part_stop (c : Consts) (t : Strategy) (s : State) (d : FSdifCmdData)
    (p L : Nat) (r : TransferResult) (stop : rt_mmcsd_cmd)
    (hstop : s.req.stop = some stop) (h1 : t s.world s.req d = some r) :
    fsdif_request_send_transfer c t s d p L =
      (t (after_main c s d p L r).world (after_main c s d p L r).req (build_req_stop c stop)).map
        (fun r2 => free_and_complete
          (after_stop (after_main c s d p L r) stop (build_req_stop c stop) r2) p) := by
  obtain ⟨⟨cmd, data, stp⟩, w, tr⟩ := s
  simp only at hstop h1
  subst hstop
  simp only [fsdif_request_send_transfer, h1, after_main, after_stop, State.call]
  cases t _ _ (build_req_stop c stop) <;> rfl

theorem transfer_part_none (c : Consts) (t : Strategy) (s : State) (d : FSdifCmdData)
    (p L : Nat) (h1 : t s.world s.req d = none) :
    fsdif_request_send_transfer c t s d p L = none := by
  unfold fsdif_request_send_transfer
  simp only [h1]

theorem free_and_complete_req (s : State) (p : Nat) : (free_and_complete s p).req = s.req := by
  unfold free_and_complete skip_cmd State.call
  split_ifs <;> rfl

theorem free_and_complete_world (s : State) (p : Nat) :
    (free_and_complete s p).world = s.world := by
  unfold free_and_complete skip_cmd State.call
  split_ifs <;> rfl

theorem free_and_complete_trace {p : Nat} (s : State) (hp : p ≠ 0) :
    (free_and_complete s p).trace =
      s.trace ++ [Call.rt_free_align p, Call.mmcsd_req_complete] := by
  unfold free_and_complete skip_cmd State.call
  simp [hp]

theorem free_and_complete_trace_null (s : State) :
    (free_and_complete s 0).trace = s.trace ++ [Call.mmcsd_req_complete] := by
  unfold free_and_complete skip_cmd State.call
  simp

theorem resp_type_and_mask (c : Consts) (cmd : rt_mmcsd_cmd) :
    resp_type c cmd &&& c.RESP_MASK = resp_type c cmd := by
  unfold resp_type
  rw [Nat.and_assoc, Nat.and_self]

theorem cmd_flag_word_flags (c : Consts) (hwf : c.WellFormed) (cmd : rt_mmcsd_cmd) :
    (hasFlag (cmd_flag_word c cmd) c.FSDIF_CMD_FLAG_NEED_INIT ↔
      cmd.cmd_code = c.GO_IDLE_STATE) ∧
    (hasFlag (cmd_flag_word c cmd) c.FSDIF_CMD_FLAG_NEED_AUTO_STOP ↔
      cmd.cmd_code = c.GO_INACTIVE_STATE) ∧
    (hasFlag (cmd_flag_word c cmd) c.FSDIF_CMD_FLAG_NEED_RESP_CRC ↔
      (resp_type c cmd ≠ c.RESP_R3 ∧ resp_type c cmd ≠ c.RESP_R4 ∧
        resp_type c cmd ≠ c.RESP_NONE)) ∧
    (hasFlag (cmd_flag_word c cmd) c.FSDIF_CMD_FLAG_EXP_RESP ↔
      resp_type c cmd ≠ c.RESP_NONE) ∧
    (hasFlag (cmd_flag_word c cmd) c.FSDIF_CMD_FLAG_EXP_LONG_RESP ↔
      resp_type c cmd = c.RESP_R2) ∧
    ¬ hasFlag (cmd_flag_word c cmd) c.FSDIF_CMD_FLAG_EXP_DATA ∧
    ¬ hasFlag (cmd_flag_word c cmd) c.FSDIF_CMD_FLAG_READ_DATA ∧
    ¬ hasFlag (cmd_flag_word c cmd) c.FSDIF_CMD_FLAG_WRITE_DATA := by
  have T := wf_flag_table c hwf
  unfold Consts.FlagTable at T
  obtain ⟨hnone, hr2, -, -, -, -, -⟩ := hwf
  have hm := resp_type_and_mask c cmd
  have hx : resp_type c cmd = c.RESP_R2 → ¬ resp_type c cmd = 0 := fun h => h ▸ hr2
  unfold cmd_flag_word
  rw [hm]
  simp only [hnone]
  split_ifs <;>
    simp only [hasFlag_or, hasFlag_zero, T, true_or, or_true, false_or, or_false, true_iff,
      iff_true, false_iff, iff_false, not_true_eq_false, not_false_eq_true, ne_eq, and_self,
      not_and, not_not] <;>
    clear T <;> first | done | tauto

theorem data_flag_word_flags (c : Consts) (hwf : c.WellFormed) (cmd : rt_mmcsd_cmd)
    (data : rt_mmcsd_data) :
    (hasFlag (data_flag_word c cmd data) c.FSDIF_CMD_FLAG_NEED_INIT ↔
      hasFlag (cmd_flag_word c cmd) c.FSDIF_CMD_FLAG_NEED_INIT) ∧
    (hasFlag (data_flag_word c cmd data) c.FSDIF_CMD_FLAG_NEED_AUTO_STOP ↔
      hasFlag (cmd_flag_word c cmd) c.FSDIF_CMD_FLAG_NEED_AUTO_STOP) ∧
    (hasFlag (data_flag_word c cmd data) c.FSDIF_CMD_FLAG_NEED_RESP_CRC ↔
      hasFlag (cmd_flag_word c cmd) c.FSDIF_CMD_FLAG_NEED_RESP_CRC) ∧
    (hasFlag (data_flag_word c cmd data) c.FSDIF_CMD_FLAG_EXP_RESP ↔
      hasFlag (cmd_flag_word c cmd) c.FSDIF_CMD_FLAG_EXP_RESP) ∧
    (hasFlag (data_flag_word c cmd data) c.FSDIF_CMD_FLAG_EXP_LONG_RESP ↔
      hasFlag (cmd_flag_word c cmd) c.FSDIF_CMD_FLAG_EXP_LONG_RESP) ∧
    hasFlag (data_flag_word c cmd data) c.FSDIF_CMD_FLAG_EXP_DATA ∧
    (hasFlag (data_flag_word c cmd data) c.FSDIF_CMD_FLAG_READ_DATA ↔ dir_read c data) ∧
    (hasFlag (data_flag_word c cmd data) c.FSDIF_CMD_FLAG_WRITE_DATA ↔
      (dir_write c data ∧ ¬ dir_read c data)) := by
  have T := wf_flag_table c hwf
  unfold Consts.FlagTable at T
  obtain ⟨-, -, -, -, -, h6, h7, h8⟩ := cmd_flag_word_flags c hwf cmd
  unfold data_flag_word dir_read dir_write
  split_ifs <;>
    simp only [hasFlag_or, hasFlag_zero, T, h6, h7, h8, true_or, or_true, false_or, or_false,
      true_iff, iff_true, false_iff, iff_false, not_true_eq_false, not_false_eq_true, ne_eq,
      and_self, not_and, not_not, true_and, and_true] <;>
    clear T <;> first | done | tauto

theorem transfer_part_stop_inv (c : Consts) (t : Strategy) (s : State) (d : FSdifCmdData)
    (p L : Nat) (stop : rt_mmcsd_cmd) (s' : State)
    (hstop : s.req.stop = some stop)
    (h : fsdif_request_send_transfer c t s d p L = some s') :
    ∃ r1 r2, t s.world s.req d = some r1 ∧
      t (after_main c s d p L r1).world (after_main c s d p L r1).req (build_req_stop c stop)
        = some r2 ∧
      s' = free_and_complete
        (after_stop (after_main c s d p L r1) stop (build_req_stop c stop) r2) p := by
  rcases h1 : t s.world s.req d with _ | r1
  · rw [transfer_part_none c t s d p L h1] at h
    cases h
  · rw [transfer_part_stop c t s d p L r1 stop hstop h1] at h
    rcases h2 : t (after_main c s d p L r1).world (after_main c s d p L r1).req
        (build_req_stop c stop) with _ | r2
    · rw [h2] at h
      cases h
    · rw [h2] at h
      simp only [Option.map_some', Option.some.injEq] at h
      exact ⟨r1, r2, rfl, h2, h.symm⟩

theorem stop_flag_word_flags (c : Consts) (hwf : c.WellFormed) (stop : rt_mmcsd_cmd)
    (h : stop.flags &&& c.RESP_MASK ≠ 0) :
    hasFlag (build_req_stop c stop).flag c.FSDIF_CMD_FLAG_READ_DATA ∧
    ¬ hasFlag (build_req_stop c stop).flag c.FSDIF_CMD_FLAG_EXP_RESP ∧
    ¬ hasFlag (build_req_stop c stop).flag c.FSDIF_CMD_FLAG_EXP_DATA ∧
    ¬ hasFlag (build_req_stop c stop).flag c.FSDIF_CMD_FLAG_WRITE_DATA := by
  have T := wf_flag_table c hwf
  unfold Consts.FlagTable at T
  simp only [build_req_stop, FSdifCmdData.zero, if_pos h]
  split_ifs <;>
    simp only [hasFlag_or, hasFlag_zero, T, true_or, or_true, false_or, or_false,
      not_true_eq_false, not_false_eq_true, and_self]

theorem transfers_append (a b : List Call) : transfers (a ++ b) = transfers a ++ transfers b := by
  induction a with
  | nil => rfl
  | cons x xs ih =>
    cases x <;> simp [transfers, ih]

theorem transfers_free_and_complete (s : State) (p : Nat) :
    transfers (free_and_complete s p).trace = transfers s.trace := by
  unfold free_and_complete skip_cmd State.call
  split_ifs <;> simp [transfers_append, transfers]

theorem mem_free_and_complete (s : State) (p : Nat) (e : Call) (h : e ∈ s.trace) :
    e ∈ (free_and_complete s p).trace := by
  unfold free_and_complete skip_cmd State.call
  split_ifs <;> simp [h]

/-! ## Memory -/

theorem rt_memcpy_dst (m : Mem) (dst src n i : Nat) (h : i < n) :
    rt_memcpy m dst src n (dst + i) = m (src + i) := by
  unfold rt_memcpy
  rw [if_pos ⟨by omega, by omega⟩]
  congr 1
  omega

theorem rt_memcpy_out (m : Mem) (dst src n a : Nat) (h : a < dst ∨ dst + n ≤ a) :
    rt_memcpy m dst src n a = m a := by
  unfold rt_memcpy
  rw [if_neg (by omega)]

theorem rt_memset_out (m : Mem) (dst v n a : Nat) (h : a < dst ∨ dst + n ≤ a) :
    rt_memset m dst v n a = m a := by
  unfold rt_memset
  rw [if_neg (by omega)]

/-- On every path `mmcsd_req_complete` is called once, except after a failed
scratch allocation, where it is not called. -/
theorem completion_count (c : Consts) (m : Nat → Nat → Nat)
    (t : World → rt_mmcsd_req → FSdifCmdData → TransferResult)
    (req : rt_mmcsd_req) (w : World) :
    ∃ s, fsdif_request_send c m (Strategy.total t) (State.init req w) = some s ∧
      s.trace.countP Call.isComplete =
        if ¬ reserved c req ∧ ∃ data, req.data = some data ∧
            m (scratch_size data) SDIF_DMA_ALIGN = 0 then 0 else 1 := by
  by_cases hres : reserved c req
  · refine ⟨_, request_send_reserved c m _ _ hres, ?_⟩
    simp [skip_cmd, State.call, State.init, Call.isComplete, hres]
  · rcases hd : req.data with _ | data
    · rw [request_send_nodata c m _ _ hres hd]
      rcases hs : req.stop with _ | stop
      · rw [transfer_part_nostop c _ _ _ _ _ _ hs rfl]
        refine ⟨_, rfl, ?_⟩
        simp [free_and_complete_trace_null, after_main, State.init, Call.isComplete]
      · rw [transfer_part_stop c _ _ _ _ _ _ stop hs rfl]
        refine ⟨_, rfl, ?_⟩
        simp [free_and_complete_trace_null, after_main, after_stop, State.init,
          Call.isComplete]
    · by_cases hp : m (scratch_size data) SDIF_DMA_ALIGN = 0
      · rw [request_send_alloc_fail c m _ _ data hres hd hp]
        refine ⟨_, rfl, ?_⟩
        simp [State.call, State.init, Call.isComplete, hres, hp]
      · rw [request_send_data c m _ _ data hres hd hp]
        rcases hs : req.stop with _ | stop
        · rw [transfer_part_nostop c _ _ _ _ _ _ hs rfl]
          refine ⟨_, rfl, ?_⟩
          simp [free_and_complete_trace _ hp, after_main, State.init, Call.isComplete, hp]
        · rw [transfer_part_stop c _ _ _ _ _ _ stop hs rfl]
          refine ⟨_, rfl, ?_⟩
          simp [free_and_complete_trace _ hp, after_main, after_stop, State.init,
            Call.isComplete, hp]

/-! ## The wait loop -/

theorem append_three {α : Type} (x : List α) (a b c : α) (l : List α) :
    x ++ [a] ++ [b] ++ [c] ++ l = x ++ (a :: b :: c :: l) := by
  simp

theorem append_three_snoc {α : Type} (x : List α) (a b c e : α) (l : List α) :
    x ++ [a] ++ [b] ++ [c] ++ l ++ [e] = x ++ (a :: b :: c :: l) ++ [e] := by
  simp

theorem append_one_snoc {α : Type} (x : List α) (a e : α) (l : List α) :
    x ++ [a] ++ l ++ [e] = x ++ (a :: l) ++ [e] := by
  simp

theorem append_one {α : Type} (x : List α) (a : α) (l : List α) :
    x ++ [a] ++ l = x ++ (a :: l) := by
  simp

theorem append_two {α : Type} (x : List α) (a b : α) :
    x ++ [a] ++ [b] = x ++ [a, b] := by
  simp

theorem wait_loop_done (c : Consts) (o : Oracle) (we : Nat) (d : FSdifCmdData) :
    ∀ (fuel : Nat) (w w' : World) (d' : FSdifCmdData),
      wait_loop c o we d fuel w = some (WaitExit.done w' d') →
      ∃ raw l, w'.log = w.log ++ l ++ [HwCall.FSdifGetCmdResponse d raw] ∧
        d' = { d with response := raw } ∧ w'.mem = w.mem := by
  intro fuel
  induction fuel with
  | zero => intro w w' d' h; simp [wait_loop] at h
  | succ n ih =>
    intro w w' d' h
    unfold wait_loop at h
    simp only at h
    split_ifs at h with h1 h2
    · simp only [Option.some.injEq, WaitExit.done.injEq] at h
      obtain ⟨hw, hd⟩ := h
      subst hw hd
      exact ⟨_, [_], rfl, rfl, rfl⟩
    · simp at h
    · obtain ⟨raw, l, hl, hd, hm⟩ := ih _ _ _ h
      exact ⟨raw, _, hl.trans (append_three_snoc _ _ _ _ _ _), hd, hm⟩

theorem wait_loop_error (c : Consts) (o : Oracle) (we : Nat) (d : FSdifCmdData) :
    ∀ (fuel : Nat) (w w' : World),
      wait_loop c o we d fuel w = some (WaitExit.error w') →
      ∃ l, w'.log = w.log ++ l ∧ (∀ e ∈ l, HwCall.isGetCmdResponse e = false) ∧
        w'.mem = w.mem := by
  intro fuel
  induction fuel with
  | zero => intro w w' h; simp [wait_loop] at h
  | succ n ih =>
    intro w w' h
    unfold wait_loop at h
    simp only at h
    split_ifs at h with h1 h2
    · simp at h
    · simp only [Option.some.injEq, WaitExit.error.injEq] at h
      subst h
      refine ⟨_, append_two _ _ _, ?_, rfl⟩
      intro e he
      simp only [List.mem_cons, List.mem_singleton, List.not_mem_nil, or_false] at he
      rcases he with rfl | rfl <;> rfl
    · obtain ⟨l, hl, hall, hm⟩ := ih _ _ h
      refine ⟨_, hl.trans (append_three _ _ _ _ _), ?_, hm⟩
      intro e he
      simp only [List.mem_cons] at he
      rcases he with rfl | rfl | rfl | he
      · rfl
      · rfl
      · rfl
      · exact hall e he

theorem wait_loop_error_at (c : Consts) (o : Oracle) (d : FSdifCmdData) :
    ∀ (k : Nat) (w : World),
      (∀ j, j < k → primary_wait c o d (w.log.length + 3 * j) ≠ c.RT_EOK ∧
                    secondary_wait c o (w.log.length + 3 * j + 1) ≠ c.RT_EOK) →
      primary_wait c o d (w.log.length + 3 * k) ≠ c.RT_EOK →
      secondary_wait c o (w.log.length + 3 * k + 1) = c.RT_EOK →
      ∀ fuel, k < fuel →
        ∃ w', wait_loop c o (wait_event_of d) d fuel w = some (WaitExit.error w') := by
  intro k
  induction k with
  | zero =>
    intro w _ hp hs fuel hf
    obtain ⟨n, rfl⟩ : ∃ n, fuel = n + 1 := ⟨fuel - 1, by omega⟩
    unfold wait_loop
    simp only [primary_wait, secondary_wait, Nat.mul_zero, Nat.add_zero] at hp hs
    simp only [World.call, List.length_append, List.length_singleton, if_neg hp, if_pos hs]
    exact ⟨_, rfl⟩
  | succ k ih =>
    intro w hall hp hs fuel hf
    obtain ⟨n, rfl⟩ : ∃ n, fuel = n + 1 := ⟨fuel - 1, by omega⟩
    have h0 := hall 0 (Nat.succ_pos k)
    simp only [primary_wait, secondary_wait, Nat.mul_zero, Nat.add_zero] at h0
    unfold wait_loop
    simp only [World.call, List.length_append, List.length_singleton, if_neg h0.1, if_neg h0.2]
    apply ih
    · intro j hj
      have := hall (j + 1) (by omega)
      simp only [List.length_append, List.length_singleton]
      have e1 : w.log.length + 1 + 1 + 1 + 3 * j = w.log.length + 3 * (j + 1) := by ring
      rw [e1]
      exact this
    · simp only [List.length_append, List.length_singleton]
      have e1 : w.log.length + 1 + 1 + 1 + 3 * k = w.log.length + 3 * (k + 1) := by ring
      rw [e1]
      exact hp
    · simp only [List.length_append, List.length_singleton]
      have e1 : w.log.length + 1 + 1 + 1 + 3 * k = w.log.length + 3 * (k + 1) := by ring
      rw [e1]
      exact hs
    · omega

theorem wf_status_ne (c : Consts) (hwf : c.WellFormed) :
    - c.RT_ERROR ≠ c.RT_EOK ∧ - c.RT_EIO ≠ c.RT_EOK := by
  obtain ⟨-, -, -, -, h0, h1, h2⟩ := hwf
  constructor <;> omega

theorem extract_resp_cases (c : Consts) (hwf : c.WellFormed) (req : rt_mmcsd_req)
    (d : FSdifCmdData) :
    (resp_type c req.cmd = c.RESP_R2 →
      extract_resp c req d =
        ⟨d.response.w3, d.response.w2, d.response.w1, d.response.w0⟩) ∧
    (resp_type c req.cmd ≠ c.RESP_R2 → resp_type c req.cmd ≠ c.RESP_NONE →
      extract_resp c req d = { req.cmd.resp with w0 := d.response.w0 }) ∧
    (resp_type c req.cmd = c.RESP_NONE → extract_resp c req d = req.cmd.resp) := by
  obtain ⟨hnone, hr2, -, -, -, -, -⟩ := hwf
  have hm := resp_type_and_mask c req.cmd
  unfold extract_resp
  rw [hm, hnone]
  refine ⟨?_, ?_, ?_⟩
  · intro h
    rw [if_pos (by rw [h]; exact hr2), if_pos h]
  · intro h1 h2
    rw [if_pos h2, if_neg h1]
  · intro h
    rw [if_neg (by simp [h])]

theorem dma_transfer_unfold (c : Consts) (o : Oracle) (fuel : Nat) (w : World)
    (req : rt_mmcsd_req) (d : FSdifCmdData) :
    fsdif_dma_transfer c o fuel w req d =
      if o.FSdifDMATransfer w.log.length d ≠ c.FT_SUCCESS then
        some { status := - c.RT_ERROR, resp := req.cmd.resp, world := submitted o w d }
      else
        match wait_loop c o (wait_event_of d) d fuel (submitted o w d) with
        | none => none
        | some (WaitExit.error w') =>
          some { status := - c.RT_EIO, resp := req.cmd.resp, world := w' }
        | some (WaitExit.done w' d') =>
          some { status := c.RT_EOK, resp := extract_resp c req d', world := w' } := by
  rfl

/-- Every return of `fsdif_dma_transfer`, classified by its status. -/
theorem dma_transfer_result (c : Consts) (o : Oracle) (fuel : Nat) (w : World)
    (req : rt_mmcsd_req) (d : FSdifCmdData) (r : TransferResult)
    (h : fsdif_dma_transfer c o fuel w req d = some r) :
    (r.status = - c.RT_ERROR ∧ r.resp = req.cmd.resp) ∨
    (r.status = - c.RT_EIO ∧ r.resp = req.cmd.resp) ∨
    (r.status = c.RT_EOK ∧
      ∃ raw l, r.world.log = w.log ++ l ++ [HwCall.FSdifGetCmdResponse d raw] ∧
        r.resp = extract_resp c req { d with response := raw }) := by
  rw [dma_transfer_unfold] at h
  split_ifs at h with hret
  · left
    simp only [Option.some.injEq] at h
    subst h
    exact ⟨rfl, rfl⟩
  · split at h
    · simp at h
    · right; left
      simp only [Option.some.injEq] at h
      subst h
      exact ⟨rfl, rfl⟩
    · rename_i w' d' hloop
      right; right
      simp only [Option.some.injEq] at h
      subst h
      obtain ⟨raw, l, hl, hd, -⟩ := wait_loop_done c o _ d fuel _ w' d' hloop
      refine ⟨rfl, raw, _, hl.trans (append_one_snoc _ _ _ _), ?_⟩
      rw [hd]

theorem wait_loop_done_at (c : Consts) (o : Oracle) (d : FSdifCmdData) :
    ∀ (k : Nat) (w : World),
      (∀ j, j < k → primary_wait c o d (w.log.length + 3 * j) ≠ c.RT_EOK ∧
                    secondary_wait c o (w.log.length + 3 * j + 1) ≠ c.RT_EOK) →
      primary_wait c o d (w.log.length + 3 * k) = c.RT_EOK →
      ∀ fuel, k < fuel →
        ∃ w' d', wait_loop c o (wait_event_of d) d fuel w = some (WaitExit.done w' d') := by
  intro k
  induction k with
  | zero =>
    intro w _ hp fuel hf
    obtain ⟨n, rfl⟩ : ∃ n, fuel = n + 1 := ⟨fuel - 1, by omega⟩
    unfold wait_loop
    simp only [primary_wait, Nat.mul_zero, Nat.add_zero] at hp
    simp only [World.call, if_pos hp]
    exact ⟨_, _, rfl⟩
  | succ k ih =>
    intro w hall hp fuel hf
    obtain ⟨n, rfl⟩ : ∃ n, fuel = n + 1 := ⟨fuel - 1, by omega⟩
    have h0 := hall 0 (Nat.succ_pos k)
    simp only [primary_wait, secondary_wait, Nat.mul_zero, Nat.add_zero] at h0
    unfold wait_loop
    simp only [World.call, List.length_append, List.length_singleton, if_neg h0.1, if_neg h0.2]
    apply ih
    · intro j hj
      have := hall (j + 1) (by omega)
      simp only [List.length_append, List.length_singleton]
      have e1 : w.log.length + 1 + 1 + 1 + 3 * j = w.log.length + 3 * (j + 1) := by ring
      rw [e1]
      exact this
    · simp only [List.length_append, List.length_singleton]
      have e1 : w.log.length + 1 + 1 + 1 + 3 * k = w.log.length + 3 * (k + 1) := by ring
      rw [e1]
      exact hp
    · omega

/-- Enough fuel gives the success: when the submission is accepted and the
primary wait matches in iteration `k` (no wait having matched before),
`fsdif_dma_transfer` returns `RT_EOK` as soon as the fuel exceeds `k`. -/
theorem dma_transfer_succeeds_at (c : Consts) (o : Oracle) (w : World) (req : rt_mmcsd_req)
    (d : FSdifCmdData) (k : Nat)
    (hret : o.FSdifDMATransfer w.log.length d = c.FT_SUCCESS)
    (hall : ∀ j, j < k → primary_wait c o d (w.log.length + 1 + 3 * j) ≠ c.RT_EOK ∧
                         secondary_wait c o (w.log.length + 1 + 3 * j + 1) ≠ c.RT_EOK)
    (hp : primary_wait c o d (w.log.length + 1 + 3 * k) = c.RT_EOK)
    (fuel : Nat) (hf : k < fuel) :
    ∃ r, fsdif_dma_transfer c o fuel w req d = some r ∧ r.status = c.RT_EOK := by
  have hlen : (submitted o w d).log.length = w.log.length + 1 := by
    simp [submitted]
  obtain ⟨w', d', hw'⟩ := wait_loop_done_at c o d k (submitted o w d)
    (by rw [hlen]; exact hall) (by rw [hlen]; exact hp) fuel hf
  rw [dma_transfer_unfold, if_neg (by simp [hret]), hw']
  exact ⟨_, rfl, rfl⟩

/-- A transfer without attached data leaves memory as it was. -/
theorem dma_transfer_no_data_keeps_memory (c : Consts) (o : Oracle) (fuel : Nat) (w : World)
    (req : rt_mmcsd_req) (d : FSdifCmdData) (r : TransferResult)
    (hd : d.data_p = none) (h : fsdif_dma_transfer c o fuel w req d = some r) :
    r.world.mem = w.mem := by
  have hsub : (submitted o w d).mem = w.mem := by
    simp [submitted, dma_effect, hd]
  rw [dma_transfer_unfold] at h
  split_ifs at h with hret
  · simp only [Option.some.injEq] at h
    subst h
    exact hsub
  · split at h
    · simp at h
    · rename_i w' hloop
      simp only [Option.some.injEq] at h
      subst h
      obtain ⟨l, -, -, hm⟩ := wait_loop_error c o _ d fuel _ w' hloop
      exact hm.trans hsub
    · rename_i w' d' hloop
      simp only [Option.some.injEq] at h
      subst h
      obtain ⟨raw, l, -, -, hm⟩ := wait_loop_done c o _ d fuel _ w' d' hloop
      exact hm.trans hsub

theorem build_req_stop_no_data (c : Consts) (stop : rt_mmcsd_cmd) :
    (build_req_stop c stop).data_p = none := by
  rfl

/-! ## Claims about `fsdif_request_send` -/

/-- C7. A request with a reserved command code (`SD_IO_SEND_OP_COND` or
`SD_IO_RW_DIRECT`), whatever its data and stop fields and whatever the
allocator and the transfer strategy would do: `fsdif_request_send` returns,
its only call is `mmcsd_req_complete` (no allocation, no strategy call), the
world with its hardware log is untouched, the command's error slot is `-1`,
which is not `RT_EOK`, and every other field of the request is unchanged.
Calling it again on the result leaves the same request and the same world and
adds one more completion. -/
theorem reserved_request_short_circuits (c : Consts) (m : Nat → Nat → Nat) (t : Strategy)
    (s : State) (hres : reserved c s.req) (hok : c.RT_EOK = 0) :
    ∃ s1, fsdif_request_send c m t s = some s1 ∧
      s1.trace = s.trace ++ [Call.mmcsd_req_complete] ∧
      s1.world.log = s.world.log ∧ s1.world.mem = s.world.mem ∧
      s1.req = { s.req with cmd := { s.req.cmd with err := -1 } } ∧
      s1.req.cmd.err = -1 ∧ s1.req.cmd.err ≠ c.RT_EOK ∧
      ∃ s2, fsdif_request_send c m t s1 = some s2 ∧
        s2.req = s1.req ∧ s2.world.log = s1.world.log ∧ s2.world.mem = s1.world.mem ∧
        s2.trace = s1.trace ++ [Call.mmcsd_req_complete] := by
  have hres1 : reserved c
      ({ s with req := { s.req with cmd := { s.req.cmd with err := -1 } } } : State).req := hres
  refine ⟨_, request_send_reserved c m t s hres, rfl, rfl, rfl, rfl, rfl, ?_, ?_⟩
  · simp [skip_cmd, State.call, hok]
  · refine ⟨_, request_send_reserved c m t _ hres1, rfl, rfl, rfl, rfl⟩

/-- Witness for C7: IO_RW_DIRECT (CMD52) sent to the driver. -/
theorem reserved_request_short_circuits_witness :
    ∃ s1, fsdif_request_send stdConsts alloc_2000 (fsdif_dma_transfer stdConsts hw_ok 1)
        (State.init req_sdio world0) = some s1 ∧
      s1.trace = (State.init req_sdio world0).trace ++ [Call.mmcsd_req_complete] ∧
      s1.world.log = (State.init req_sdio world0).world.log ∧
      s1.world.mem = (State.init req_sdio world0).world.mem ∧
      s1.req = { (State.init req_sdio world0).req with
                  cmd := { (State.init req_sdio world0).req.cmd with err := -1 } } ∧
      s1.req.cmd.err = -1 ∧ s1.req.cmd.err ≠ stdConsts.RT_EOK ∧
      ∃ s2, fsdif_request_send stdConsts alloc_2000 (fsdif_dma_transfer stdConsts hw_ok 1) s1
          = some s2 ∧
        s2.req = s1.req ∧ s2.world.log = s1.world.log ∧ s2.world.mem = s1.world.mem ∧
        s2.trace = s1.trace ++ [Call.mmcsd_req_complete] :=
  reserved_request_short_circuits stdConsts alloc_2000 (fsdif_dma_transfer stdConsts hw_ok 1)
    (State.init req_sdio world0) (by decide) (by decide)

/-- C1, at the failing input: READ_SINGLE_BLOCK with data while the allocator
returns null.  `fsdif_request_send` returns after the failed allocation with
no call of `mmcsd_req_complete` at all. -/
theorem alloc_failure_skips_completion :
    (fsdif_request_send stdConsts alloc_null (fsdif_dma_transfer stdConsts hw_ok 1)
        (State.init req_read_single world0)).map
      (fun s => (s.trace.countP Call.isComplete, s.trace.length)) = some (0, 1) := by
  rfl

/-- C2, at the failing input: READ_SINGLE_BLOCK with data, error slot cleared
by the caller, while the allocator returns null.  No transfer is started, and
the error slot of the command still holds `RT_EOK` when `fsdif_request_send`
returns. -/
theorem alloc_failure_not_reported :
    (fsdif_request_send stdConsts alloc_null (fsdif_dma_transfer stdConsts hw_ok 1)
        (State.init req_read_single world0)).map
      (fun s => (s.req.cmd.err, decide (s.req.cmd.err = stdConsts.RT_EOK),
                 s.trace.countP Call.isTransfer, s.world.log.length))
      = some (0, true, 0, 0) := by
  rfl

/-- C6. For every request, allocator and strategy that returns (with any
status, for the main and for the stop command): `fsdif_request_send` returns,
and the number of `rt_free_align` calls equals the number of successful
`rt_malloc_align` calls.  When a scratch buffer was allocated (data present,
command not reserved, allocator returned `p ≠ 0`), the calls are: the
allocation, one or two strategy calls, then `rt_free_align p`, then
`mmcsd_req_complete` — one release, after the last transfer and before the
completion. -/
theorem scratch_released_exactly_once (c : Consts) (m : Nat → Nat → Nat)
    (t : World → rt_mmcsd_req → FSdifCmdData → TransferResult)
    (req : rt_mmcsd_req) (w : World) :
    ∃ s, fsdif_request_send c m (Strategy.total t) (State.init req w) = some s ∧
      s.trace.countP Call.isFree = s.trace.countP Call.isAllocOk ∧
      ∀ data, ¬ reserved c req → req.data = some data →
        m (scratch_size data) SDIF_DMA_ALIGN ≠ 0 →
        ∃ calls,
          s.trace = Call.rt_malloc_align (scratch_size data) SDIF_DMA_ALIGN
                      (m (scratch_size data) SDIF_DMA_ALIGN) :: calls ++
                    [Call.rt_free_align (m (scratch_size data) SDIF_DMA_ALIGN),
                     Call.mmcsd_req_complete] ∧
          calls.all Call.isTransfer = true ∧ 1 ≤ calls.length ∧ calls.length ≤ 2 ∧
          s.trace.countP Call.isFree = 1 ∧ s.trace.countP Call.isComplete = 1 := by
  by_cases hres : reserved c req
  · refine ⟨_, request_send_reserved c m _ _ hres, ?_, ?_⟩
    · simp [skip_cmd, State.call, State.init, Call.isFree, Call.isAllocOk]
    · intro data h; exact absurd hres h
  · rcases hd : req.data with _ | data
    · rw [request_send_nodata c m _ _ hres hd]
      rcases hs : req.stop with _ | stop
      · rw [transfer_part_nostop c _ _ _ _ _ _ hs rfl]
        refine ⟨_, rfl, ?_, ?_⟩
        · simp [free_and_complete_trace_null, after_main, State.init, Call.isFree,
            Call.isAllocOk]
        · intro data _ h; cases h
      · rw [transfer_part_stop c _ _ _ _ _ _ stop hs rfl]
        refine ⟨_, rfl, ?_, ?_⟩
        · simp [free_and_complete_trace_null, after_main, after_stop, State.init,
            Call.isFree, Call.isAllocOk]
        · intro data _ h; cases h
    · by_cases hp : m (scratch_size data) SDIF_DMA_ALIGN = 0
      · rw [request_send_alloc_fail c m _ _ data hres hd hp]
        refine ⟨_, rfl, ?_, ?_⟩
        · simp [State.call, State.init, Call.isFree, Call.isAllocOk]
        · intro data2 _ h hp2
          cases h
          exact absurd hp hp2
      · rw [request_send_data c m _ _ data hres hd hp]
        rcases hs : req.stop with _ | stop
        · rw [transfer_part_nostop c _ _ _ _ _ _ hs rfl]
          refine ⟨_, rfl, ?_, ?_⟩
          · simp [free_and_complete_trace _ hp, after_main, State.init, Call.isFree,
              Call.isAllocOk, hp]
          · intro data2 _ h _
            cases h
            rw [free_and_complete_trace _ hp]
            refine ⟨[Call.transfer _ _ _], rfl, ?_⟩
            simp [after_main, State.init, Call.isFree, Call.isComplete, Call.isTransfer]
        · rw [transfer_part_stop c _ _ _ _ _ _ stop hs rfl]
          refine ⟨_, rfl, ?_, ?_⟩
          · simp [free_and_complete_trace _ hp, after_main, after_stop, State.init,
              Call.isFree, Call.isAllocOk, hp]
          · intro data2 _ h _
            cases h
            rw [free_and_complete_trace _ hp]
            refine ⟨[Call.transfer _ _ _, Call.transfer _ _ _], rfl, ?_⟩
            simp [after_main, after_stop, State.init, Call.isFree, Call.isComplete,
              Call.isTransfer]

/-- Witness for C6: a two-block write with a stop command; the scratch buffer
at `0x2000` is released once, after both transfers and before completion. -/
theorem scratch_released_exactly_once_witness :
    ∃ s, fsdif_request_send stdConsts alloc_2000 (Strategy.total strat_ok)
        (State.init req_write_multi world0) = some s ∧
      s.trace.countP Call.isFree = s.trace.countP Call.isAllocOk ∧
      ∃ calls,
        s.trace = Call.rt_malloc_align 1024 512 0x2000 :: calls ++
                  [Call.rt_free_align 0x2000, Call.mmcsd_req_complete] ∧
        calls.all Call.isTransfer = true ∧ 1 ≤ calls.length ∧ calls.length ≤ 2 ∧
        s.trace.countP Call.isFree = 1 ∧ s.trace.countP Call.isComplete = 1 := by
  obtain ⟨s, hs, hcount, h⟩ :=
    scratch_released_exactly_once stdConsts alloc_2000 strat_ok req_write_multi world0
  exact ⟨s, hs, hcount,
    h { blksize := 512, blks := 2, buf := 0x4000, flags := 1 } (by decide) rfl (by decide)⟩

/-- C8. For every request that is not reserved and reaches the transfer (no
data, or the scratch allocation succeeded), with well-formed constants and any
strategy that returns: the first descriptor handed to the strategy carries the
command code and argument of the request, and its flag word has
NeedInit iff the code is `GO_IDLE_STATE`, NeedAutoStop iff the code is
`GO_INACTIVE_STATE`, NeedResponseCRC iff the response type is none of R3, R4,
none, ExpectResponse iff the response type is not none, ExpectLongResponse iff
the response type is R2, ExpectData iff the request has a data descriptor;
with data whose direction is exactly one of read and write, ReadData iff it is
read and WriteData iff it is write (in general ReadData iff the read bit is
set, WriteData iff the write bit is set and the read bit is not); without
data neither is set. -/
theorem main_descriptor_flags (c : Consts) (hwf : c.WellFormed) (m : Nat → Nat → Nat)
    (t : World → rt_mmcsd_req → FSdifCmdData → TransferResult)
    (req : rt_mmcsd_req) (w : World) (hres : ¬ reserved c req)
    (halloc : ∀ data, req.data = some data → m (scratch_size data) SDIF_DMA_ALIGN ≠ 0) :
    ∃ s d rest, fsdif_request_send c m (Strategy.total t) (State.init req w) = some s ∧
      transfers s.trace = d :: rest ∧
      d.cmdidx = req.cmd.cmd_code ∧ d.cmdarg = req.cmd.arg ∧
      (hasFlag d.flag c.FSDIF_CMD_FLAG_NEED_INIT ↔ req.cmd.cmd_code = c.GO_IDLE_STATE) ∧
      (hasFlag d.flag c.FSDIF_CMD_FLAG_NEED_AUTO_STOP ↔
        req.cmd.cmd_code = c.GO_INACTIVE_STATE) ∧
      (hasFlag d.flag c.FSDIF_CMD_FLAG_NEED_RESP_CRC ↔
        (resp_type c req.cmd ≠ c.RESP_R3 ∧ resp_type c req.cmd ≠ c.RESP_R4 ∧
          resp_type c req.cmd ≠ c.RESP_NONE)) ∧
      (hasFlag d.flag c.FSDIF_CMD_FLAG_EXP_RESP ↔ resp_type c req.cmd ≠ c.RESP_NONE) ∧
      (hasFlag d.flag c.FSDIF_CMD_FLAG_EXP_LONG_RESP ↔ resp_type c req.cmd = c.RESP_R2) ∧
      (hasFlag d.flag c.FSDIF_CMD_FLAG_EXP_DATA ↔ req.data ≠ none) ∧
      (∀ data, req.data = some data →
        ((dir_read c data ∧ ¬ dir_write c data) ∨ (¬ dir_read c data ∧ dir_write c data)) →
        ((hasFlag d.flag c.FSDIF_CMD_FLAG_READ_DATA ↔ dir_read c data) ∧
         (hasFlag d.flag c.FSDIF_CMD_FLAG_WRITE_DATA ↔ dir_write c data))) ∧
      (∀ data, req.data = some data →
        ((hasFlag d.flag c.FSDIF_CMD_FLAG_READ_DATA ↔ dir_read c data) ∧
         (hasFlag d.flag c.FSDIF_CMD_FLAG_WRITE_DATA ↔
           (dir_write c data ∧ ¬ dir_read c data)))) ∧
      (req.data = none →
        ¬ hasFlag d.flag c.FSDIF_CMD_FLAG_READ_DATA ∧
        ¬ hasFlag d.flag c.FSDIF_CMD_FLAG_WRITE_DATA) := by
  obtain ⟨f1, f2, f3, f4, f5, f6, f7, f8⟩ := cmd_flag_word_flags c hwf req.cmd
  rcases hd : req.data with _ | data
  · have hrun := request_send_nodata c m (Strategy.total t) (State.init req w) hres hd
    have htr : ∃ s rest, fsdif_request_send c m (Strategy.total t) (State.init req w) = some s ∧
        transfers s.trace = main_desc_nodata c req.cmd :: rest := by
      rw [hrun]
      rcases hs : req.stop with _ | stop
      · rw [transfer_part_nostop c _ _ _ _ _ _ hs rfl]
        exact ⟨_, [], rfl, by simp [free_and_complete_trace_null, after_main, State.init,
          transfers]⟩
      · rw [transfer_part_stop c _ _ _ _ _ _ stop hs rfl]
        exact ⟨_, [build_req_stop c stop], rfl, by
          simp [free_and_complete_trace_null, after_main, after_stop, State.init, transfers]⟩
    obtain ⟨s, rest, hs, htrs⟩ := htr
    refine ⟨s, _, rest, hs, htrs, rfl, rfl, f1, f2, f3, f4, f5, ?_, ?_, ?_, ?_⟩
    · simp only [main_desc_nodata, ne_eq, not_true_eq_false, iff_false]
      exact f6
    · intro data h; cases h
    · intro data h; cases h
    · intro _; exact ⟨f7, f8⟩
  · have hp := halloc data hd
    obtain ⟨g1, g2, g3, g4, g5, g6, g7, g8⟩ := data_flag_word_flags c hwf req.cmd data
    have hrun := request_send_data c m (Strategy.total t) (State.init req w) data hres hd hp
    have htr : ∃ s rest, fsdif_request_send c m (Strategy.total t) (State.init req w) = some s ∧
        transfers s.trace =
          main_desc_data c req.cmd data (m (scratch_size data) SDIF_DMA_ALIGN) :: rest := by
      rw [hrun]
      rcases hs : req.stop with _ | stop
      · rw [transfer_part_nostop c _ _ _ _ _ _ hs rfl]
        exact ⟨_, [], rfl, by simp [free_and_complete_trace _ hp, after_main, State.init,
          transfers]⟩
      · rw [transfer_part_stop c _ _ _ _ _ _ stop hs rfl]
        exact ⟨_, [build_req_stop c stop], rfl, by
          simp [free_and_complete_trace _ hp, after_main, after_stop, State.init, transfers]⟩
    obtain ⟨s, rest, hs, htrs⟩ := htr
    refine ⟨s, _, rest, hs, htrs, rfl, rfl, g1.trans f1, g2.trans f2, g3.trans f3, g4.trans f4,
      g5.trans f5, ?_, ?_, ?_, ?_⟩
    · simp only [main_desc_data, ne_eq, reduceCtorEq, not_false_eq_true, iff_true]
      exact g6
    · intro data2 h hx
      cases h
      refine ⟨g7, ?_⟩
      simp only [main_desc_data]
      rw [g8]
      rcases hx with ⟨hr, hw⟩ | ⟨hr, hw⟩
      · exact ⟨fun h => h.1, fun h => absurd h hw⟩
      · exact ⟨fun h => h.1, fun h => ⟨h, hr⟩⟩
    · intro data2 h
      cases h
      simp only [main_desc_data]
      exact ⟨g7, g8⟩
    · intro h; cases h

/-- Witness for C8: READ_SINGLE_BLOCK (code 17, response R1, one block to
read).  The main descriptor has NeedResponseCRC, ExpectResponse, ExpectData
and ReadData, and none of NeedInit, NeedAutoStop, ExpectLongResponse,
WriteData. -/
theorem main_descriptor_flags_witness :
    ∃ s d rest,
      fsdif_request_send stdConsts alloc_2000 (Strategy.total strat_ok)
        (State.init req_read_single world0) = some s ∧
      transfers s.trace = d :: rest ∧ d.cmdidx = 17 ∧ d.cmdarg = 0 ∧
      ¬ hasFlag d.flag stdConsts.FSDIF_CMD_FLAG_NEED_INIT ∧
      ¬ hasFlag d.flag stdConsts.FSDIF_CMD_FLAG_NEED_AUTO_STOP ∧
      hasFlag d.flag stdConsts.FSDIF_CMD_FLAG_NEED_RESP_CRC ∧
      hasFlag d.flag stdConsts.FSDIF_CMD_FLAG_EXP_RESP ∧
      ¬ hasFlag d.flag stdConsts.FSDIF_CMD_FLAG_EXP_LONG_RESP ∧
      hasFlag d.flag stdConsts.FSDIF_CMD_FLAG_EXP_DATA ∧
      hasFlag d.flag stdConsts.FSDIF_CMD_FLAG_READ_DATA ∧
      ¬ hasFlag d.flag stdConsts.FSDIF_CMD_FLAG_WRITE_DATA := by
  obtain ⟨s, d, rest, h1, h2, h3, h4, f1, f2, f3, f4, f5, f6, f7, -, -⟩ :=
    main_descriptor_flags stdConsts stdConsts_wf alloc_2000 strat_ok req_read_single world0
      (by decide) (fun _ _ => (by decide : (0x2000 : Nat) ≠ 0))
  obtain ⟨g1, g2⟩ := f7 { blksize := 512, blks := 1, buf := 0x1008, flags := 2 } rfl
    (Or.inl (by decide))
  exact ⟨s, d, rest, h1, h2, h3, h4,
    fun h => absurd (f1.mp h) (by decide),
    fun h => absurd (f2.mp h) (by decide),
    f3.mpr (by decide), f4.mpr (by decide),
    fun h => absurd (f5.mp h) (by decide),
    f6.mpr (by decide), g1.mpr (by decide),
    fun h => absurd (g2.mp h) (by decide)⟩

/-! ## Claims about `fsdif_dma_transfer` -/

/-- C4. Whenever `fsdif_dma_transfer` returns success, the last hardware-side
call was `FSdifGetCmdResponse`, storing raw words `raw` into the descriptor,
and the response slots of the command are: for response type R2,
`resp[0] = raw[3]`, `resp[1] = raw[2]`, `resp[2] = raw[1]`, `resp[3] = raw[0]`;
for any other response type that is not none, `resp[0] = raw[0]` with
`resp[1..3]` unchanged; for response type none, all four slots unchanged. -/
theorem response_extraction (c : Consts) (hwf : c.WellFormed) (o : Oracle) (fuel : Nat)
    (w : World) (req : rt_mmcsd_req) (d : FSdifCmdData) (r : TransferResult)
    (h : fsdif_dma_transfer c o fuel w req d = some r) (hok : r.status = c.RT_EOK) :
    ∃ raw l, r.world.log = w.log ++ l ++ [HwCall.FSdifGetCmdResponse d raw] ∧
      (resp_type c req.cmd = c.RESP_R2 →
        r.resp.w0 = raw.w3 ∧ r.resp.w1 = raw.w2 ∧ r.resp.w2 = raw.w1 ∧ r.resp.w3 = raw.w0) ∧
      (resp_type c req.cmd ≠ c.RESP_R2 → resp_type c req.cmd ≠ c.RESP_NONE →
        r.resp.w0 = raw.w0 ∧ r.resp.w1 = req.cmd.resp.w1 ∧ r.resp.w2 = req.cmd.resp.w2 ∧
        r.resp.w3 = req.cmd.resp.w3) ∧
      (resp_type c req.cmd = c.RESP_NONE → r.resp = req.cmd.resp) := by
  obtain ⟨e1, e2⟩ := wf_status_ne c hwf
  rcases dma_transfer_result c o fuel w req d r h with ⟨hs, -⟩ | ⟨hs, -⟩ | ⟨-, raw, l, hl, hr⟩
  · exact absurd (hs.symm.trans hok) e1
  · exact absurd (hs.symm.trans hok) e2
  · obtain ⟨x1, x2, x3⟩ := extract_resp_cases c hwf req { d with response := raw }
    refine ⟨raw, l, hl, ?_, ?_, ?_⟩
    · intro h2
      rw [hr, x1 h2]
      exact ⟨rfl, rfl, rfl, rfl⟩
    · intro h2 h0
      rw [hr, x2 h2 h0]
      exact ⟨rfl, rfl, rfl, rfl⟩
    · intro h0
      rw [hr, x3 h0]

/-- Witness for C4: a command with response type R2 whose raw response words
are `[10, 11, 12, 13]` ends with response slots `[13, 12, 11, 10]`. -/
theorem response_extraction_witness :
    result_r2.resp = ⟨13, 12, 11, 10⟩ ∧
    ∃ raw l, result_r2.world.log = world0.log ++ l ++ [HwCall.FSdifGetCmdResponse desc_r2 raw] ∧
      (resp_type stdConsts req_r2.cmd = stdConsts.RESP_R2 →
        result_r2.resp.w0 = raw.w3 ∧ result_r2.resp.w1 = raw.w2 ∧
        result_r2.resp.w2 = raw.w1 ∧ result_r2.resp.w3 = raw.w0) ∧
      (resp_type stdConsts req_r2.cmd ≠ stdConsts.RESP_R2 →
        resp_type stdConsts req_r2.cmd ≠ stdConsts.RESP_NONE →
        result_r2.resp.w0 = raw.w0 ∧ result_r2.resp.w1 = req_r2.cmd.resp.w1 ∧
        result_r2.resp.w2 = req_r2.cmd.resp.w2 ∧ result_r2.resp.w3 = req_r2.cmd.resp.w3) ∧
      (resp_type stdConsts req_r2.cmd = stdConsts.RESP_NONE →
        result_r2.resp = req_r2.cmd.resp) :=
  ⟨rfl, response_extraction stdConsts stdConsts_wf hw_ok 1 world0 req_r2 desc_r2 result_r2
    rfl rfl⟩

/-- C5. For every descriptor given to `fsdif_dma_transfer`:
(1) if `FSdifDMATransfer` does not return `FT_SUCCESS`, the function returns
`-RT_ERROR` whatever the fuel, the only hardware-side call is the submission
(no event wait, no `FSdifGetCmdResponse`) and the response slots are
unchanged;
(2) if the submission succeeds and in iteration `k` of the wait loop — all
earlier iterations having seen neither wait match — the primary wait does not
return `RT_EOK` and the secondary wait does, the function returns `-RT_EIO`
as soon as the fuel covers `k + 1` iterations, without any call of
`FSdifGetCmdResponse` and with the response slots unchanged (hardware-side
calls are numbered by their position in the log: the submission is call
`w.log.length`, and iteration `j` makes the primary wait as call
`w.log.length + 1 + 3 * j`, the secondary wait as the next one, then the
relaxation delay);
(3) with well-formed constants neither status is `RT_EOK`. -/
theorem transfer_failures (c : Consts) (o : Oracle) (w : World) (req : rt_mmcsd_req)
    (d : FSdifCmdData) :
    (o.FSdifDMATransfer w.log.length d ≠ c.FT_SUCCESS →
      ∀ fuel, ∃ r, fsdif_dma_transfer c o fuel w req d = some r ∧
        r.status = - c.RT_ERROR ∧ r.resp = req.cmd.resp ∧
        r.world.log =
          w.log ++ [HwCall.FSdifDMATransfer d (o.FSdifDMATransfer w.log.length d)]) ∧
    (o.FSdifDMATransfer w.log.length d = c.FT_SUCCESS →
      ∀ k,
        (∀ j, j < k → primary_wait c o d (w.log.length + 1 + 3 * j) ≠ c.RT_EOK ∧
                      secondary_wait c o (w.log.length + 1 + 3 * j + 1) ≠ c.RT_EOK) →
        primary_wait c o d (w.log.length + 1 + 3 * k) ≠ c.RT_EOK →
        secondary_wait c o (w.log.length + 1 + 3 * k + 1) = c.RT_EOK →
        ∀ fuel, k < fuel → ∃ r, fsdif_dma_transfer c o fuel w req d = some r ∧
          r.status = - c.RT_EIO ∧ r.resp = req.cmd.resp ∧
          ∃ l, r.world.log = w.log ++ l ∧ ∀ e ∈ l, HwCall.isGetCmdResponse e = false) ∧
    (c.WellFormed → - c.RT_ERROR ≠ c.RT_EOK ∧ - c.RT_EIO ≠ c.RT_EOK) := by
  refine ⟨?_, ?_, wf_status_ne c⟩
  · intro hret fuel
    rw [dma_transfer_unfold, if_pos hret]
    exact ⟨_, rfl, rfl, rfl, rfl⟩
  · intro hret k hall hp hs fuel hf
    have hlen : (submitted o w d).log.length = w.log.length + 1 := by
      simp [submitted]
    obtain ⟨w', hw'⟩ := wait_loop_error_at c o d k (submitted o w d)
      (by rw [hlen]; exact hall) (by rw [hlen]; exact hp) (by rw [hlen]; exact hs) fuel hf
    obtain ⟨l, hl, hno, -⟩ := wait_loop_error c o _ d fuel _ w' hw'
    rw [dma_transfer_unfold, if_neg (by simp [hret]), hw']
    refine ⟨_, rfl, rfl, rfl, _, hl.trans (append_one _ _ _), ?_⟩
    intro e he
    simp only [List.mem_cons] at he
    rcases he with rfl | he
    · rfl
    · exact hno e he

/-- Witness for C5: hardware that refuses the submission, and hardware that
raises the error event in the second iteration of the wait loop. -/
theorem transfer_failures_witness :
    (∃ r, fsdif_dma_transfer stdConsts hw_reject 0 world0 req_r2 desc_r2 = some r ∧
      r.status = - stdConsts.RT_ERROR ∧ r.resp = req_r2.cmd.resp ∧
      r.world.log = world0.log ++ [HwCall.FSdifDMATransfer desc_r2 1]) ∧
    (∃ r, fsdif_dma_transfer stdConsts hw_error 2 world0 req_r2 desc_r2 = some r ∧
      r.status = - stdConsts.RT_EIO ∧ r.resp = req_r2.cmd.resp ∧
      ∃ l, r.world.log = world0.log ++ l ∧ ∀ e ∈ l, HwCall.isGetCmdResponse e = false) ∧
    (- stdConsts.RT_ERROR ≠ stdConsts.RT_EOK ∧ - stdConsts.RT_EIO ≠ stdConsts.RT_EOK) :=
  ⟨(transfer_failures stdConsts hw_reject world0 req_r2 desc_r2).1 (by decide) 0,
   (transfer_failures stdConsts hw_error world0 req_r2 desc_r2).2.1 (by decide) 1
      (by intro j hj
          have hj0 : j = 0 := by omega
          subst hj0
          decide)
      (by decide) (by decide) 2 (by decide),
   (transfer_failures stdConsts hw_error world0 req_r2 desc_r2).2.2 stdConsts_wf⟩

/-! ## The stop command -/

/-- C9, at the failing input: WRITE_MULTIPLE_BLOCK followed by
STOP_TRANSMISSION (response R1B).  Two descriptors reach the strategy.  The
main one (index 25) has flag word `116` = NeedResponseCRC, ExpectResponse,
ExpectData, WriteData.  The stop one (index 12, no data attached) has flag
word `128`: ReadData is set and ExpectResponse is not. -/
theorem stop_descriptor_flag_is_read_data :
    (fsdif_request_send stdConsts alloc_2000 (Strategy.total strat_ok)
        (State.init req_write_multi world0)).map
      (fun s => (transfers s.trace).map
        (fun d => (d.cmdidx, d.flag, d.data_p.isSome,
                   decide (hasFlag d.flag stdConsts.FSDIF_CMD_FLAG_EXP_RESP),
                   decide (hasFlag d.flag stdConsts.FSDIF_CMD_FLAG_READ_DATA))))
      = some [(25, 116, true, true, false), (12, 128, false, false, true)] := by
  rfl

/-- C10 as stated fails: a main command with response type none (slots
`[1, 2, 3, 4]`) followed by a stop command.  Both transfers succeed, the stop
transfer fetches raw words `[10, 11, 12, 13]` as the last hardware-side call,
and the main response slots still hold `[1, 2, 3, 4]`: word 0 was not
overwritten. -/
theorem stop_response_not_written_for_resp_none :
    (fsdif_request_send stdConsts alloc_2000 (fsdif_dma_transfer stdConsts hw_ok 1)
        (State.init req_noresp_stop world0)).map
      (fun s => (s.req.cmd.err, s.req.stop.map (fun st => st.err), s.req.cmd.resp,
                 s.world.log.getLast?))
      = some (0, some 0, ⟨1, 2, 3, 4⟩,
          some (HwCall.FSdifGetCmdResponse
            { cmdidx := 12, cmdarg := 0, response := ⟨0, 0, 0, 0⟩, flag := 128, data_p := none }
            ⟨10, 11, 12, 13⟩)) := by
  rfl

theorem main_resp_after_transfer (c : Consts) (hwf : c.WellFormed) (o : Oracle) (fuel : Nat)
    (w : World) (req : rt_mmcsd_req) (d : FSdifCmdData) (r : TransferResult)
    (h : fsdif_dma_transfer c o fuel w req d = some r) :
    (resp_type c req.cmd ≠ c.RESP_R2 →
      r.resp.w1 = req.cmd.resp.w1 ∧ r.resp.w2 = req.cmd.resp.w2 ∧
      r.resp.w3 = req.cmd.resp.w3) ∧
    (resp_type c req.cmd = c.RESP_NONE → r.resp = req.cmd.resp) := by
  obtain ⟨hnone, hr2, -, -, -, -, -⟩ := id hwf
  rcases dma_transfer_result c o fuel w req d r h with ⟨-, hr⟩ | ⟨-, hr⟩ | ⟨-, raw, l, -, hr⟩
  · rw [hr]; exact ⟨fun _ => ⟨rfl, rfl, rfl⟩, fun _ => rfl⟩
  · rw [hr]; exact ⟨fun _ => ⟨rfl, rfl, rfl⟩, fun _ => rfl⟩
  · obtain ⟨-, x2, x3⟩ := extract_resp_cases c hwf req { d with response := raw }
    refine ⟨?_, ?_⟩
    · intro h2
      by_cases h0 : resp_type c req.cmd = c.RESP_NONE
      · rw [hr, x3 h0]; exact ⟨rfl, rfl, rfl⟩
      · rw [hr, x2 h2 h0]; exact ⟨rfl, rfl, rfl⟩
    · intro h0
      rw [hr, x3 h0]

theorem stop_transfer_core (c : Consts) (hwf : c.WellFormed) (o : Oracle) (fuel : Nat)
    (s0 : State) (d1 : FSdifCmdData) (p L : Nat) (st : rt_mmcsd_cmd) (s : State)
    (htr : transfers s0.trace = []) (hstop : s0.req.stop = some st)
    (hrun : fsdif_request_send_transfer c (fsdif_dma_transfer c o fuel) s0 d1 p L = some s) :
    ∃ w1 r1 w2 r2,
      transfers s.trace = [d1, build_req_stop c st] ∧
      Call.transfer d1 w1 r1 ∈ s.trace ∧
      Call.transfer (build_req_stop c st) w2 r2 ∈ s.trace ∧
      s.req.cmd.err = r1.status ∧
      s.req.stop = some { st with err := r2.status } ∧
      (r2.status = c.RT_EOK →
        ∃ raw l, s.world.log = w2.log ++ l ++
            [HwCall.FSdifGetCmdResponse (build_req_stop c st) raw] ∧
          (resp_type c s0.req.cmd = c.RESP_R2 →
            s.req.cmd.resp = ⟨raw.w3, raw.w2, raw.w1, raw.w0⟩) ∧
          (resp_type c s0.req.cmd ≠ c.RESP_R2 → resp_type c s0.req.cmd ≠ c.RESP_NONE →
            s.req.cmd.resp = { s0.req.cmd.resp with w0 := raw.w0 }) ∧
          (resp_type c s0.req.cmd = c.RESP_NONE → s.req.cmd.resp = s0.req.cmd.resp)) := by
  obtain ⟨r1, r2, h1, h2, hs⟩ := transfer_part_stop_inv c _ s0 d1 p L st s hstop hrun
  subst hs
  refine ⟨s0.world, r1, (after_main c s0 d1 p L r1).world, r2, ?_, ?_, ?_, ?_, ?_, ?_⟩
  · rw [transfers_free_and_complete]
    simp [after_stop, after_main, transfers_append, transfers, htr]
  · apply mem_free_and_complete
    simp [after_stop, after_main]
  · apply mem_free_and_complete
    simp [after_stop, after_main]
  · rw [free_and_complete_req]; rfl
  · rw [free_and_complete_req]; rfl
  · intro hok
    obtain ⟨e1, e2⟩ := wf_status_ne c hwf
    obtain ⟨k1, k2⟩ := main_resp_after_transfer c hwf o fuel _ _ _ _ h1
    rcases dma_transfer_result c o fuel _ _ _ r2 h2 with
      ⟨hs, -⟩ | ⟨hs, -⟩ | ⟨-, raw, l, hl, hr⟩
    · exact absurd (hs.symm.trans hok) e1
    · exact absurd (hs.symm.trans hok) e2
    · obtain ⟨x1, x2, x3⟩ := extract_resp_cases c hwf (after_main c s0 d1 p L r1).req
        { build_req_stop c st with response := raw }
      have hreq : (free_and_complete (after_stop (after_main c s0 d1 p L r1) st
          (build_req_stop c st) r2) p).req.cmd.resp = r2.resp := by
        rw [free_and_complete_req]; rfl
      have hty : resp_type c (after_main c s0 d1 p L r1).req.cmd = resp_type c s0.req.cmd := rfl
      have hresp1 : (after_main c s0 d1 p L r1).req.cmd.resp = r1.resp := rfl
      rw [hty] at x1 x2 x3
      rw [hresp1] at x2 x3
      refine ⟨raw, l, ?_, ?_, ?_, ?_⟩
      · rw [free_and_complete_world]; exact hl
      · intro h
        rw [hreq, hr, x1 h]
      · intro h h0
        rw [hreq, hr, x2 h h0]
        obtain ⟨q1, q2, q3⟩ := k1 h
        cases hrr : r1.resp
        cases hqq : s0.req.cmd.resp
        rw [hrr, hqq] at q1 q2 q3
        simp only at q1 q2 q3
        subst q1 q2 q3
        rfl
      · intro h0
        rw [hreq, hr, x3 h0, k2 h0]

/-- C10, amended.  For every request with a stop command that is not reserved
and reaches the transfer, served by `fsdif_dma_transfer`: the strategy is
called twice, for the main descriptor and for the stop descriptor; the error
slot of the main command holds the status of the first call, the error slot of
the stop command the status of the second, and the stop command is otherwise
unchanged (its response slots are never written).  When the second call
returns `RT_EOK`, its last hardware-side call fetched raw words `raw` for the
stop descriptor, and the response slots of the main command are: `raw`
reversed if the main response type is R2; `raw[0]` in slot 0 and the caller's
values in slots 1–3 if it is another type that is not none; the caller's
values in all four slots if it is none. -/
theorem stop_response_lands_in_main_slots (c : Consts) (hwf : c.WellFormed) (o : Oracle)
    (fuel : Nat) (m : Nat → Nat → Nat) (req : rt_mmcsd_req) (w : World) (st : rt_mmcsd_cmd)
    (s : State) (hres : ¬ reserved c req) (hstop : req.stop = some st)
    (halloc : ∀ data, req.data = some data → m (scratch_size data) SDIF_DMA_ALIGN ≠ 0)
    (hrun : fsdif_request_send c m (fsdif_dma_transfer c o fuel) (State.init req w) = some s) :
    ∃ d1 w1 r1 w2 r2,
      transfers s.trace = [d1, build_req_stop c st] ∧
      Call.transfer d1 w1 r1 ∈ s.trace ∧
      Call.transfer (build_req_stop c st) w2 r2 ∈ s.trace ∧
      s.req.cmd.err = r1.status ∧
      s.req.stop = some { st with err := r2.status } ∧
      (r2.status = c.RT_EOK →
        ∃ raw l, s.world.log = w2.log ++ l ++
            [HwCall.FSdifGetCmdResponse (build_req_stop c st) raw] ∧
          (resp_type c req.cmd = c.RESP_R2 →
            s.req.cmd.resp = ⟨raw.w3, raw.w2, raw.w1, raw.w0⟩) ∧
          (resp_type c req.cmd ≠ c.RESP_R2 → resp_type c req.cmd ≠ c.RESP_NONE →
            s.req.cmd.resp = { req.cmd.resp with w0 := raw.w0 }) ∧
          (resp_type c req.cmd = c.RESP_NONE → s.req.cmd.resp = req.cmd.resp)) := by
  rcases hd : req.data with _ | data
  · rw [request_send_nodata c m _ _ hres hd] at hrun
    obtain ⟨w1, r1, w2, r2, h⟩ := stop_transfer_core c hwf o fuel (State.init req w)
      (main_desc_nodata c req.cmd) 0 0 st s rfl hstop hrun
    exact ⟨_, w1, r1, w2, r2, h⟩
  · have hp := halloc data hd
    rw [request_send_data c m _ _ data hres hd hp] at hrun
    have key := fun htr => stop_transfer_core c hwf o fuel _ _ _ _ st s htr hstop hrun
    obtain ⟨w1, r1, w2, r2, h⟩ := key rfl
    exact ⟨_, w1, r1, w2, r2, h⟩

/-- Witness for C10, amended: the two-block write with STOP_TRANSMISSION on
hardware that completes both transfers. -/
theorem stop_response_lands_in_main_slots_witness :
    final_write_multi.req.cmd.resp = ⟨10, 0, 0, 0⟩ ∧
    ∃ d1 w1 r1 w2 r2,
      transfers final_write_multi.trace = [d1, build_req_stop stdConsts
        { cmd_code := 12, arg := 0, resp := ⟨0, 0, 0, 0⟩, flags := 2, err := 0 }] ∧
      Call.transfer d1 w1 r1 ∈ final_write_multi.trace ∧
      Call.transfer (build_req_stop stdConsts
        { cmd_code := 12, arg := 0, resp := ⟨0, 0, 0, 0⟩, flags := 2, err := 0 }) w2 r2
          ∈ final_write_multi.trace ∧
      final_write_multi.req.cmd.err = r1.status ∧
      final_write_multi.req.stop =
        some { ({ cmd_code := 12, arg := 0, resp := ⟨0, 0, 0, 0⟩, flags := 2, err := 0 } :
                  rt_mmcsd_cmd) with err := r2.status } ∧
      (r2.status = stdConsts.RT_EOK →
        ∃ raw l, final_write_multi.world.log = w2.log ++ l ++
            [HwCall.FSdifGetCmdResponse (build_req_stop stdConsts
              { cmd_code := 12, arg := 0, resp := ⟨0, 0, 0, 0⟩, flags := 2, err := 0 }) raw] ∧
          (resp_type stdConsts req_write_multi.cmd = stdConsts.RESP_R2 →
            final_write_multi.req.cmd.resp = ⟨raw.w3, raw.w2, raw.w1, raw.w0⟩) ∧
          (resp_type stdConsts req_write_multi.cmd ≠ stdConsts.RESP_R2 →
            resp_type stdConsts req_write_multi.cmd ≠ stdConsts.RESP_NONE →
            final_write_multi.req.cmd.resp = { req_write_multi.cmd.resp with w0 := raw.w0 }) ∧
          (resp_type stdConsts req_write_multi.cmd = stdConsts.RESP_NONE →
            final_write_multi.req.cmd.resp = req_write_multi.cmd.resp)) :=
  ⟨rfl, stop_response_lands_in_main_slots stdConsts stdConsts_wf hw_ok 1 alloc_2000
    req_write_multi world0 { cmd_code := 12, arg := 0, resp := ⟨0, 0, 0, 0⟩, flags := 2, err := 0 }
    final_write_multi (by decide) rfl (fun _ _ => (by decide : (0x2000 : Nat) ≠ 0)) rfl⟩

/-! ## The scratch buffer of a misaligned request -/

/-- C3. For every request that is not reserved, carries data in a caller
buffer whose address is not a multiple of 512, and got its scratch buffer
`p ≠ 0`, with `L = (blksize * blks) mod 2^32` (equal to `blksize * blks`
whenever that fits 32 bits) and any strategy that returns:
the calls start with the allocation followed by the main transfer, whose
descriptor has the scratch buffer attached (`buf = p`, `datalen = L`);
if the direction has the write bit and the caller buffer does not overlap the
scratch region, then in the memory handed to the main transfer the first `L`
bytes at `p` equal the first `L` bytes of the caller buffer, which are still
the caller's bytes;
if the direction has the read bit and the stop transfer (when there is one)
leaves memory alone, then when `fsdif_request_send` returns the first `L`
bytes of the caller buffer equal the first `L` bytes at `p` as the main
transfer left them. -/
theorem misaligned_buffer_goes_through_scratch (c : Consts) (m : Nat → Nat → Nat)
    (t : World → rt_mmcsd_req → FSdifCmdData → TransferResult)
    (req : rt_mmcsd_req) (w : World) (data : rt_mmcsd_data)
    (hres : ¬ reserved c req) (hd : req.data = some data)
    (hmis : data.buf % SDIF_DMA_ALIGN ≠ 0)
    (hp : m (scratch_size data) SDIF_DMA_ALIGN ≠ 0) :
    ∃ s d w1 r1 rest dd,
      fsdif_request_send c m (Strategy.total t) (State.init req w) = some s ∧
      s.trace = Call.rt_malloc_align (scratch_size data) SDIF_DMA_ALIGN
                  (m (scratch_size data) SDIF_DMA_ALIGN) :: Call.transfer d w1 r1 :: rest ∧
      d.data_p = some dd ∧ dd.buf = m (scratch_size data) SDIF_DMA_ALIGN ∧
      dd.datalen = datalen data ∧
      (data.blksize * data.blks < U32 → datalen data = data.blksize * data.blks) ∧
      (dir_write c data →
        (data.buf + datalen data ≤ m (scratch_size data) SDIF_DMA_ALIGN ∨
          m (scratch_size data) SDIF_DMA_ALIGN + scratch_size data ≤ data.buf ∧
          m (scratch_size data) SDIF_DMA_ALIGN + datalen data ≤ data.buf) →
        ∀ i, i < datalen data →
          w1.mem (m (scratch_size data) SDIF_DMA_ALIGN + i) = w1.mem (data.buf + i) ∧
          w1.mem (data.buf + i) = w.mem (data.buf + i)) ∧
      (dir_read c data →
        (∀ st, req.stop = some st →
          ∀ w2 req2, (t w2 req2 (build_req_stop c st)).world.mem = w2.mem) →
        ∀ i, i < datalen data →
          s.world.mem (data.buf + i) =
            r1.world.mem (m (scratch_size data) SDIF_DMA_ALIGN + i)) := by
  have hrun := request_send_data c m (Strategy.total t) (State.init req w) data hres hd hp
  have hdesc : (main_desc_data c req.cmd data (m (scratch_size data) SDIF_DMA_ALIGN)).data_p =
      some { buf := m (scratch_size data) SDIF_DMA_ALIGN,
             buf_dma := (m (scratch_size data) SDIF_DMA_ALIGN + c.PV_OFFSET) % UPTR,
             blksz := data.blksize,
             blkcnt := (data.blks + c.CONFIG_SDCARD_OFFSET) % U32,
             datalen := datalen data } := by
    simp only [main_desc_data, main_req_data, if_pos hmis]
  have hlen : data.blksize * data.blks < U32 → datalen data = data.blksize * data.blks :=
    fun h => Nat.mod_eq_of_lt h
  have hwrite : dir_write c data →
      (data.buf + datalen data ≤ m (scratch_size data) SDIF_DMA_ALIGN ∨
          m (scratch_size data) SDIF_DMA_ALIGN + scratch_size data ≤ data.buf ∧
          m (scratch_size data) SDIF_DMA_ALIGN + datalen data ≤ data.buf) →
      ∀ i, i < datalen data →
        main_mem c data (m (scratch_size data) SDIF_DMA_ALIGN) w.mem
            (m (scratch_size data) SDIF_DMA_ALIGN + i) =
          main_mem c data (m (scratch_size data) SDIF_DMA_ALIGN) w.mem (data.buf + i) ∧
        main_mem c data (m (scratch_size data) SDIF_DMA_ALIGN) w.mem (data.buf + i) =
          w.mem (data.buf + i) := by
    intro hw hsep i hi
    unfold dir_write at hw
    have e2 : main_mem c data (m (scratch_size data) SDIF_DMA_ALIGN) w.mem (data.buf + i) =
        w.mem (data.buf + i) := by
      simp only [main_mem, if_pos hmis, if_pos hw]
      rw [rt_memcpy_out _ _ _ _ _ (by omega), rt_memset_out _ _ _ _ _ (by omega)]
    have e1 : main_mem c data (m (scratch_size data) SDIF_DMA_ALIGN) w.mem
        (m (scratch_size data) SDIF_DMA_ALIGN + i) = w.mem (data.buf + i) := by
      simp only [main_mem, if_pos hmis, if_pos hw]
      rw [rt_memcpy_dst _ _ _ _ _ hi, rt_memset_out _ _ _ _ _ (by omega)]
    exact ⟨e1.trans e2.symm, e2⟩
  have hcopy : dir_read c data → ∀ (mm : Mem) i, i < datalen data →
      copy_back c (some data) (m (scratch_size data) SDIF_DMA_ALIGN) (datalen data) mm
          (data.buf + i) = mm (m (scratch_size data) SDIF_DMA_ALIGN + i) := by
    intro hr mm i hi
    unfold dir_read at hr
    simp only [copy_back, if_pos hr, if_pos hmis]
    exact rt_memcpy_dst _ _ _ _ _ hi
  rw [hrun]
  rcases hs : req.stop with _ | stop
  · rw [transfer_part_nostop c _ _ _ _ _ _ hs rfl]
    refine ⟨_, _, World.mk (main_mem c data (m (scratch_size data) SDIF_DMA_ALIGN) w.mem) w.log,
      _, _, _, rfl, (free_and_complete_trace _ hp).trans rfl, hdesc, rfl, rfl, hlen, hwrite, ?_⟩
    intro hr _ i hi
    rw [free_and_complete_world]
    simp only [after_main, State.init, hd]
    exact hcopy hr _ i hi
  · rw [transfer_part_stop c _ _ _ _ _ _ stop hs rfl]
    refine ⟨_, _, World.mk (main_mem c data (m (scratch_size data) SDIF_DMA_ALIGN) w.mem) w.log,
      _, _, _, rfl, (free_and_complete_trace _ hp).trans rfl, hdesc, rfl, rfl, hlen, hwrite, ?_⟩
    intro hr hquiet i hi
    rw [free_and_complete_world]
    simp only [after_stop]
    rw [hquiet stop rfl]
    simp only [after_main, State.init, hd]
    exact hcopy hr _ i hi

/-- Witness for C3: a single-block 512-byte read into the buffer at `0x1008`,
8 bytes off the alignment, with the scratch buffer at `0x2000`.  The
descriptor carries the scratch buffer, and on return the 512 bytes of the
caller buffer are the 512 bytes the transfer left in the scratch buffer. -/
theorem misaligned_buffer_goes_through_scratch_witness :
    ∃ s d w1 r1 rest dd,
      fsdif_request_send stdConsts alloc_2000 (Strategy.total strat_ok)
        (State.init req_read_single world0) = some s ∧
      s.trace = Call.rt_malloc_align 512 512 0x2000 :: Call.transfer d w1 r1 :: rest ∧
      d.data_p = some dd ∧ dd.buf = 0x2000 ∧ dd.datalen = 512 ∧
      ∀ i, i < 512 → s.world.mem (0x1008 + i) = r1.world.mem (0x2000 + i) := by
  obtain ⟨s, d, w1, r1, rest, dd, h1, h2, h3, h4, h5, -, -, h8⟩ :=
    misaligned_buffer_goes_through_scratch stdConsts alloc_2000 strat_ok req_read_single world0
      { blksize := 512, blks := 1, buf := 0x1008, flags := 2 }
      (by decide) rfl (by decide) (by decide)
  exact ⟨s, d, w1, r1, rest, dd, h1, h2, h3, h4, h5,
    h8 (by decide) (fun st h => by cases h)⟩

end Sdif
